import Mathlib

/-!
Verification of the ROHC library core against its specification.

The definitions below are a shallow embedding of the C sources:
  src/src/comp/c_rtp.c                      (RFC 3095 RTP compression profile)
  src/src/comp/comp_rfc5225_ip.c            (ROHCv2 IP-only compression profile)
  src/src/decomp/decomp_rfc5225_ip_udp_rtp.c (ROHCv2 IP/UDP decompression profile)

Machine integers are modelled as Nat with explicit reductions modulo 2^w where
the C code relies on fixed-width behaviour.  Fallible C functions (returning a
negative size or a false boolean) are modelled with Option.  Helper constants
and functions that live in parts of the library that are not part of the
sources (crc.c, sdvl.c, cid.c, rohc_decomp.c, various headers) are modelled
from the specification document and are marked as such in their doc comments.
-/

/- ================== common constants ================== -/

/-- IP version constant IPV4 from the ip headers of the library. -/
def IPV4 : Nat := 4

/-- IP version constant IPV6 from the ip headers of the library. -/
def IPV6 : Nat := 6

/-- Modelled from the spec: confidence counter threshold MAX_IR_COUNT of
rohc_comp_internals.h, which is not under src/; the spec describes it as the
number of IR transmissions needed for a state promotion (value 3 in the
library). -/
def MAX_IR_COUNT : Nat := 3

/-- Modelled from the spec: confidence counter threshold MAX_FO_COUNT of
rohc_comp_internals.h, which is not under src/ (value 3 in the library). -/
def MAX_FO_COUNT : Nat := 3

/-- Modelled from the spec: threshold ROHC_INIT_TS_STRIDE_MIN of ts_sc_comp.h,
which is not under src/; the spec says the scaled-TS machine moves from
INIT_STRIDE to SEND_SCALED after ROHC_INIT_TS_STRIDE_MIN (typically 3)
transmissions of TS_STRIDE. -/
def ROHC_INIT_TS_STRIDE_MIN : Nat := 3

/-- Modelled from the spec: sdvl_can_length_be_encoded of sdvl.c, which is not
under src/.  The spec describes SDVL as encoding up to 29 bits of payload in
at most 4 bytes, so a bit count can be SDVL-encoded exactly when it does not
exceed 29. -/
def sdvl_can_length_be_encoded (bits_nr : Nat) : Bool :=
  bits_nr ≤ 29

/-- Modelled from the spec: c_bytesSdvl of sdvl.c, which is not under src/.
The spec gives the four SDVL forms with 7, 14, 21 and 29 payload bits; the
function returns the number of bytes of the shortest form that fits, and a
value above 4 signals that the value cannot be SDVL-encoded. -/
def c_bytesSdvl (value : Nat) : Nat :=
  if value ≤ 127 then 1
  else if value ≤ 16383 then 2
  else if value ≤ 2097151 then 3
  else if value ≤ 536870911 then 4
  else 5

/-- Modelled from the spec: c_encodeSdvl of sdvl.c, which is not under src/.
Produces the SDVL bytes of the shortest form, with the high-bit discriminators
0, 10, 110, 111 described by the spec. -/
def c_encodeSdvl (value : Nat) : List Nat :=
  if value ≤ 127 then [value]
  else if value ≤ 16383 then [128 + value / 256, value % 256]
  else if value ≤ 2097151 then [192 + value / 65536, value / 256 % 256, value % 256]
  else [224 + value / 16777216 % 32, value / 65536 % 256, value / 256 % 256, value % 256]

/-- Big-endian byte pair of a 16-bit value, as produced by a memcpy of a
network-byte-order uint16 field. -/
def be16 (v : Nat) : List Nat := [v / 256 % 256, v % 256]

/-- Big-endian bytes of a 32-bit value, as produced by a memcpy of a
network-byte-order uint32 field. -/
def be32 (v : Nat) : List Nat :=
  [v / 16777216 % 256, v / 65536 % 256, v / 256 % 256, v % 256]

/- ================== packet type enumerations ================== -/

/-- Packet types of rohc_packets.h used by the RFC 3095 RTP profile. -/
inductive rohc_packet_t : Type
  | PACKET_IR
  | PACKET_IR_DYN
  | PACKET_UO_0
  | PACKET_UO_1_RTP
  | PACKET_UO_1_TS
  | PACKET_UO_1_ID
  | PACKET_UOR_2_RTP
  | PACKET_UOR_2_TS
  | PACKET_UOR_2_ID
  | PACKET_UNKNOWN
  deriving DecidableEq, Repr

export rohc_packet_t (PACKET_IR PACKET_IR_DYN PACKET_UO_0 PACKET_UO_1_RTP
  PACKET_UO_1_TS PACKET_UO_1_ID PACKET_UOR_2_RTP PACKET_UOR_2_TS
  PACKET_UOR_2_ID PACKET_UNKNOWN)

/-- Extension types of rohc_packets.h used by the RFC 3095 RTP profile. -/
inductive rohc_ext_t : Type
  | PACKET_NOEXT
  | PACKET_EXT_0
  | PACKET_EXT_1
  | PACKET_EXT_2
  | PACKET_EXT_3
  | PACKET_EXT_UNKNOWN
  deriving DecidableEq, Repr

/- ================== RFC 3095 RTP profile: context model ================== -/

/-- UDP header as read by the compressor; fields hold the network-byte-order
16-bit values. -/
structure udphdr : Type where
  source : Nat
  dest : Nat
  len : Nat
  check : Nat
  deriving DecidableEq, Repr

/-- RTP header as read by the compressor. -/
structure rtphdr : Type where
  version : Nat
  padding : Nat
  ext_bit : Nat
  cc : Nat
  m : Nat
  pt : Nat
  sn : Nat
  timestamp : Nat
  ssrc : Nat
  deriving DecidableEq, Repr

/-- States of the scaled RTP Timestamp encoding machine (ts_sc_comp.h). -/
inductive ts_sc_state : Type
  | INIT_TS
  | INIT_STRIDE
  | SEND_SCALED
  deriving DecidableEq, Repr

/-- Scaled RTP Timestamp encoding context (struct ts_sc_comp of ts_sc_comp.h,
reduced to the fields that the functions under src/ read or write:
the state, the stride, the last TS delta and the INIT_STRIDE transmission
counter). -/
structure ts_sc_comp : Type where
  state : ts_sc_state
  ts_stride : Nat
  ts_delta : Nat
  nr_init_stride_packets : Nat
  deriving DecidableEq, Repr

/-- Modelled from the spec: the is_ts_constant macro of ts_sc_comp.h, which is
not under src/; the spec describes the constant-TS special case as the one
where the TS did not change, that is the last TS delta is zero. -/
def is_ts_constant (ts_sc : ts_sc_comp) : Bool :=
  ts_sc.ts_delta == 0

/-- Modelled from the spec: the get_ts_stride macro of ts_sc_comp.h, which is
not under src/; it merely reads the ts_stride field. -/
def get_ts_stride (ts_sc : ts_sc_comp) : Nat :=
  ts_sc.ts_stride

/-- RTP-specific temporary variables (struct rtp_tmp_vars of c_rtp.h). -/
structure rtp_tmp_vars : Type where
  send_rtp_dynamic : Int
  timestamp : Nat
  ts_send : Nat
  nr_ts_bits : Nat
  m_set : Nat
  rtp_pt_changed : Nat
  deriving DecidableEq, Repr

/-- RTP part of the profile context (struct sc_rtp_context of c_rtp.h),
with the field order of the source. -/
structure sc_rtp_context : Type where
  udp_checksum_change_count : Nat
  old_udp : udphdr
  rtp_pt_change_count : Nat
  old_rtp : rtphdr
  ts_sc : ts_sc_comp
  tmp : rtp_tmp_vars
  deriving DecidableEq, Repr

/-- IPv4-specific flags of the generic context (struct ipv4_header_info of
c_generic.h, reduced to the rnd flag read by the packet deciders). -/
structure ipv4_header_info : Type where
  rnd : Bool
  deriving DecidableEq, Repr

/-- Per-IP-header flags of the generic context (struct ip_header_info of
c_generic.h, reduced to the fields read by the packet deciders). -/
structure ip_header_info : Type where
  version : Nat
  info_v4 : ipv4_header_info
  deriving DecidableEq, Repr

/-- Generic temporary variables (struct generic_tmp_vars of c_generic.h),
reduced to the fields read by the functions under src/. -/
structure generic_tmp_vars : Type where
  nr_of_ip_hdr : Nat
  send_static : Nat
  send_dynamic : Nat
  nr_sn_bits : Nat
  nr_ip_id_bits : Nat
  nr_ip_id_bits2 : Nat
  packet_type : rohc_packet_t
  deriving DecidableEq, Repr

/-- Generic compression context (struct c_generic_context of c_generic.h),
reduced to the fields read by the functions under src/. -/
structure c_generic_context : Type where
  sn : Nat
  ir_dyn_count : Nat
  ip_flags : ip_header_info
  ip2_flags : ip_header_info
  tmp : generic_tmp_vars
  deriving DecidableEq, Repr

/-- Count of IP headers that are IPv4 with a non-random IP-ID, as computed by
the double-IP-header branches of the packet deciders of c_rtp.c (local
variable nr_ipv4_non_rnd). -/
def nr_ipv4_non_rnd (g : c_generic_context) : Nat :=
  (if g.ip_flags.version == IPV4 && !g.ip_flags.info_v4.rnd then 1 else 0) +
  (if g.ip2_flags.version == IPV4 && !g.ip2_flags.info_v4.rnd then 1 else 0)

/-- Count of IPv4-with-non-random-IP-ID headers that also have IP-ID bits to
transmit, as computed by the double-IP-header branches of the packet deciders
of c_rtp.c (local variable nr_ipv4_non_rnd_with_bits). -/
def nr_ipv4_non_rnd_with_bits (g : c_generic_context) : Nat :=
  (if g.ip_flags.version == IPV4 && !g.ip_flags.info_v4.rnd &&
      g.tmp.nr_ip_id_bits > 0 then 1 else 0) +
  (if g.ip2_flags.version == IPV4 && !g.ip2_flags.info_v4.rnd &&
      g.tmp.nr_ip_id_bits2 > 0 then 1 else 0)

/- ================== c_rtp_decide_SO_packet ================== -/

/-- Embedding of c_rtp_decide_SO_packet of src/src/comp/c_rtp.c: decide the
packet type in Second Order state, for single and double IP headers. -/
def c_rtp_decide_SO_packet (g : c_generic_context) (r : sc_rtp_context) :
    rohc_packet_t :=
  let nr_of_ip_hdr := g.tmp.nr_of_ip_hdr
  let nr_sn_bits := g.tmp.nr_sn_bits
  let nr_ts_bits := r.tmp.nr_ts_bits
  let nr_ip_id_bits := g.tmp.nr_ip_id_bits
  let is_rnd := g.ip_flags.info_v4.rnd
  let is_ip_v4 := g.ip_flags.version == IPV4
  if nr_of_ip_hdr = 1 then
    let is_ipv4_non_rnd := is_ip_v4 && !is_rnd
    if !is_ipv4_non_rnd && nr_sn_bits ≤ 4 && nr_ts_bits == 0 && r.tmp.m_set == 0 then
      PACKET_UO_0
    else if !is_ipv4_non_rnd && nr_sn_bits ≤ 4 && nr_ts_bits ≤ 6 then
      PACKET_UO_1_RTP
    else if !is_ipv4_non_rnd then
      PACKET_UOR_2_RTP
    else if nr_sn_bits ≤ 4 && nr_ip_id_bits == 0 && nr_ts_bits == 0 &&
            r.tmp.m_set == 0 then
      PACKET_UO_0
    else if nr_sn_bits ≤ 4 && nr_ip_id_bits == 0 && nr_ts_bits ≤ 5 then
      PACKET_UO_1_TS
    else if nr_sn_bits ≤ 4 && nr_ip_id_bits ≤ 5 && nr_ts_bits == 0 &&
            r.tmp.m_set == 0 then
      PACKET_UO_1_ID
    else if nr_ip_id_bits > 0 && sdvl_can_length_be_encoded nr_ts_bits then
      PACKET_UOR_2_ID
    else
      PACKET_UOR_2_TS
  else
    let nr_ip_id_bits2 := g.tmp.nr_ip_id_bits2
    if nr_sn_bits ≤ 4 && nr_ipv4_non_rnd_with_bits g == 0 && nr_ts_bits == 0 &&
       r.tmp.m_set == 0 then
      PACKET_UO_0
    else if nr_ipv4_non_rnd g == 0 && nr_sn_bits ≤ 4 && nr_ts_bits ≤ 6 then
      PACKET_UO_1_RTP
    else if nr_ipv4_non_rnd_with_bits g ≤ 1 &&
            (nr_ip_id_bits ≤ 5 || nr_ip_id_bits2 ≤ 5) &&
            nr_sn_bits ≤ 4 && nr_ts_bits == 0 && r.tmp.m_set == 0 then
      PACKET_UO_1_ID
    else if nr_ipv4_non_rnd_with_bits g == 0 && nr_sn_bits ≤ 4 && nr_ts_bits ≤ 5 then
      PACKET_UO_1_TS
    else if nr_ipv4_non_rnd g == 0 then
      PACKET_UOR_2_RTP
    else if nr_ipv4_non_rnd_with_bits g ≤ 1 && sdvl_can_length_be_encoded nr_ts_bits then
      PACKET_UOR_2_ID
    else if nr_ipv4_non_rnd g == 1 then
      PACKET_UOR_2_TS
    else
      PACKET_IR_DYN

/-- Selection table of the specification for the RTP profile in SO state with
a single IP header, written row by row from the words of the claim, earlier
rows taking priority. -/
def rtp_so_single_ip_table (g : c_generic_context) (r : sc_rtp_context) :
    rohc_packet_t :=
  let nr_sn_bits := g.tmp.nr_sn_bits
  let nr_ts_bits := r.tmp.nr_ts_bits
  let nr_ip_id_bits := g.tmp.nr_ip_id_bits
  let ipv4_non_rnd := (g.ip_flags.version == IPV4) && !g.ip_flags.info_v4.rnd
  let m_bit_zero := r.tmp.m_set == 0
  if !ipv4_non_rnd && nr_sn_bits ≤ 4 && nr_ts_bits == 0 && m_bit_zero then
    PACKET_UO_0
  else if !ipv4_non_rnd && nr_sn_bits ≤ 4 && nr_ts_bits ≤ 6 then
    PACKET_UO_1_RTP
  else if !ipv4_non_rnd then
    PACKET_UOR_2_RTP
  else if ipv4_non_rnd && nr_sn_bits ≤ 4 && nr_ip_id_bits == 0 &&
          nr_ts_bits == 0 && m_bit_zero then
    PACKET_UO_0
  else if ipv4_non_rnd && nr_sn_bits ≤ 4 && nr_ip_id_bits == 0 && nr_ts_bits ≤ 5 then
    PACKET_UO_1_TS
  else if ipv4_non_rnd && nr_sn_bits ≤ 4 && nr_ip_id_bits ≤ 5 &&
          nr_ts_bits == 0 && m_bit_zero then
    PACKET_UO_1_ID
  else if ipv4_non_rnd && nr_ip_id_bits > 0 && sdvl_can_length_be_encoded nr_ts_bits then
    PACKET_UOR_2_ID
  else
    PACKET_UOR_2_TS

/- ================== c_rtp_decide_FO_packet ================== -/

/-- Embedding of c_rtp_decide_FO_packet of src/src/comp/c_rtp.c: decide the
packet type in First Order state.  The function also maintains the ir_dyn_count
confidence counter of the generic context, so the result pairs the chosen
packet type with the new value of that counter. -/
def c_rtp_decide_FO_packet (g : c_generic_context) (r : sc_rtp_context) :
    rohc_packet_t × Nat :=
  let nr_of_ip_hdr := g.tmp.nr_of_ip_hdr
  let nr_sn_bits := g.tmp.nr_sn_bits
  let nr_ts_bits := r.tmp.nr_ts_bits
  if g.tmp.send_static ≠ 0 then
    (PACKET_UOR_2_RTP, 0)
  else if g.ir_dyn_count < MAX_FO_COUNT then
    (PACKET_IR_DYN, g.ir_dyn_count + 1)
  else if nr_of_ip_hdr = 1 ∧ g.tmp.send_dynamic > 2 then
    (PACKET_IR_DYN, g.ir_dyn_count)
  else if nr_of_ip_hdr > 1 ∧ g.tmp.send_dynamic > 4 then
    (PACKET_IR_DYN, g.ir_dyn_count)
  else if nr_sn_bits ≤ 14 then
    let is_ip_v4 := g.ip_flags.version == IPV4
    let is_rnd := g.ip_flags.info_v4.rnd
    let nr_ip_id_bits := g.tmp.nr_ip_id_bits
    if nr_of_ip_hdr = 1 then
      let is_ipv4_non_rnd := is_ip_v4 && !is_rnd
      if !is_ipv4_non_rnd then
        (PACKET_UOR_2_RTP, g.ir_dyn_count)
      else if nr_ip_id_bits > 0 && sdvl_can_length_be_encoded nr_ts_bits then
        (PACKET_UOR_2_ID, g.ir_dyn_count)
      else
        (PACKET_UOR_2_TS, g.ir_dyn_count)
    else
      if nr_ipv4_non_rnd g == 0 then
        (PACKET_UOR_2_RTP, g.ir_dyn_count)
      else if nr_ipv4_non_rnd_with_bits g ≤ 1 && sdvl_can_length_be_encoded nr_ts_bits then
        (PACKET_UOR_2_ID, g.ir_dyn_count)
      else if nr_ipv4_non_rnd g == 1 then
        (PACKET_UOR_2_TS, g.ir_dyn_count)
      else
        (PACKET_IR_DYN, g.ir_dyn_count)
  else
    (PACKET_IR_DYN, g.ir_dyn_count)

/- ================== c_rtp_decide_extension ================== -/

/-- Embedding of c_rtp_decide_extension of src/src/comp/c_rtp.c.  The generic
decide_extension algorithm shared by the IP-based profiles lives in
c_generic.c, which is not under src/, so it is taken as an explicit function
argument. -/
def c_rtp_decide_extension (decide_ext : c_generic_context → rohc_ext_t)
    (g : c_generic_context) (r : sc_rtp_context) : rohc_ext_t :=
  if r.tmp.send_rtp_dynamic > 0 then
    rohc_ext_t.PACKET_EXT_3
  else
    decide_ext g

/- ================== rtp_changed_rtp_dynamic ================== -/

/-- Embedding of rtp_changed_rtp_dynamic of src/src/comp/c_rtp.c: count the
changed RTP dynamic fields and record the related side effects on the RTP
context (checksum change counter reset, marker memorisation, payload type
change bookkeeping, timestamp memorisation).  The result pairs the field
count with the updated RTP context. -/
def rtp_changed_rtp_dynamic (r : sc_rtp_context) (udp : udphdr) (rtp : rtphdr) :
    Nat × sc_rtp_context :=
  let udp_check_changed :=
    (udp.check ≠ 0 ∧ r.old_udp.check = 0) ∨ (udp.check = 0 ∧ r.old_udp.check ≠ 0)
  let r :=
    if udp_check_changed then { r with udp_checksum_change_count := 0 } else r
  let fields := if rtp.cc ≠ r.old_rtp.cc then 2 else 0
  let fields := fields + (if rtp.ssrc ≠ r.old_rtp.ssrc then 1 else 0)
  let r :=
    { r with tmp := { r.tmp with m_set := if rtp.m ≠ 0 then 1 else 0 } }
  if rtp.pt ≠ r.old_rtp.pt ∨ r.rtp_pt_change_count < MAX_IR_COUNT then
    let r :=
      if rtp.pt ≠ r.old_rtp.pt then
        { r with rtp_pt_change_count := 0,
                 tmp := { r.tmp with rtp_pt_changed := 1 } }
      else r
    (fields + 1, { r with tmp := { r.tmp with timestamp := rtp.timestamp } })
  else
    (fields,
     { r with tmp := { r.tmp with rtp_pt_changed := 0, timestamp := rtp.timestamp } })

/- ================== rtp_code_dynamic_rtp_part ================== -/

/-- Embedding of rtp_code_dynamic_rtp_part of src/src/comp/c_rtp.c: build the
dynamic part of the UDP/RTP headers and update the RTP context (checksum and
payload type transmission counters, scaled-TS machine).  The mode comes from
the compression context and packet_type from the generic temporary variables.
The C code hits an assertion when TS_STRIDE cannot be SDVL-encoded; this is
modelled by returning none.  On success the result is the list of emitted
bytes together with the updated RTP context. -/
def rtp_code_dynamic_rtp_part (mode : Nat) (packet_type : rohc_packet_t)
    (r : sc_rtp_context) (udp : udphdr) (rtp : rtphdr) :
    Option (List Nat × sc_rtp_context) :=
  let part1 := be16 udp.check
  let r := { r with udp_checksum_change_count := r.udp_checksum_change_count + 1 }
  let rx_byte :=
    !is_ts_constant r.ts_sc &&
    (r.ts_sc.state == ts_sc_state.INIT_STRIDE ||
     (packet_type == PACKET_IR && r.ts_sc.state == ts_sc_state.SEND_SCALED))
  let byte2 := (if rx_byte then 16 else 0) +
               (rtp.version % 4) * 64 + (rtp.padding % 2) * 32 + rtp.cc % 16
  let byte3 := (rtp.m % 2) * 128 + rtp.pt % 128
  let r := { r with rtp_pt_change_count := r.rtp_pt_change_count + 1 }
  let parts1to6 := part1 ++ [byte2, byte3] ++ be16 rtp.sn ++ be32 rtp.timestamp ++ [0]
  let finish := fun (r : sc_rtp_context) (bytes : List Nat) =>
    if r.ts_sc.state == ts_sc_state.INIT_TS then
      some (bytes,
            { r with ts_sc := { r.ts_sc with state := ts_sc_state.INIT_STRIDE,
                                             nr_init_stride_packets := 0 } })
    else
      some (bytes, r)
  if rx_byte then
    let tis := 0
    let tss := if r.ts_sc.state ≠ ts_sc_state.INIT_TS then 1 else 0
    let byte7 := (rtp.ext_bit % 2) * 16 + (mode % 4) * 4 + tis * 2 + tss
    if tss = 1 then
      let ts_stride := get_ts_stride r.ts_sc
      let ts_stride_sdvl_len := c_bytesSdvl ts_stride
      if ts_stride_sdvl_len > 4 then
        none
      else
        let sdvl_bytes := c_encodeSdvl ts_stride
        let r :=
          if r.ts_sc.state == ts_sc_state.INIT_STRIDE then
            let r2 :=
              { r with ts_sc := { r.ts_sc with
                  nr_init_stride_packets := r.ts_sc.nr_init_stride_packets + 1 } }
            if r2.ts_sc.nr_init_stride_packets ≥ ROHC_INIT_TS_STRIDE_MIN then
              { r2 with ts_sc := { r2.ts_sc with state := ts_sc_state.SEND_SCALED } }
            else
              r2
          else r
        finish r (parts1to6 ++ [byte7] ++ sdvl_bytes)
    else
      finish r (parts1to6 ++ [byte7])
  else
    finish r parts1to6

/- ================== c_rtp_encode ================== -/

/-- Portion of the RTP context that c_generic_encode may modify through the
profile callbacks registered by c_rtp_create (rtp_decide_state,
c_rtp_decide_FO_packet, c_rtp_decide_SO_packet, c_rtp_decide_extension,
rtp_code_static_rtp_part, rtp_code_dynamic_rtp_part): every field of
sc_rtp_context except the old_udp and old_rtp snapshots, which none of those
callbacks writes. -/
structure sc_rtp_volatile : Type where
  udp_checksum_change_count : Nat
  rtp_pt_change_count : Nat
  ts_sc : ts_sc_comp
  tmp : rtp_tmp_vars
  deriving DecidableEq, Repr

/-- Write back the volatile portion of an RTP context. -/
def sc_rtp_context.with_volatile (r : sc_rtp_context) (v : sc_rtp_volatile) :
    sc_rtp_context :=
  { r with udp_checksum_change_count := v.udp_checksum_change_count,
           rtp_pt_change_count := v.rtp_pt_change_count,
           ts_sc := v.ts_sc,
           tmp := v.tmp }

/-- Embedding of c_rtp_encode of src/src/comp/c_rtp.c.  The generic encoder
c_generic_encode lives in c_generic.c, which is not under src/; it is taken as
an explicit function argument that returns the encoding outcome (none models a
negative size), the chosen packet type it stored in the generic temporary
variables, and the new volatile portion of the RTP context (it cannot touch
old_udp and old_rtp, see sc_rtp_volatile).  The result is the outcome, the
chosen packet type and the final RTP context. -/
def c_rtp_encode
    (c_generic_encode : sc_rtp_context → Option Nat × rohc_packet_t × sc_rtp_volatile)
    (r0 : sc_rtp_context) (udp : udphdr) (rtp : rtphdr) :
    Option Nat × rohc_packet_t × sc_rtp_context :=
  let send_rtp_dynamic_and_ctx := rtp_changed_rtp_dynamic r0 udp rtp
  let r1 := { send_rtp_dynamic_and_ctx.2 with
              tmp := { send_rtp_dynamic_and_ctx.2.tmp with
                       send_rtp_dynamic := (send_rtp_dynamic_and_ctx.1 : Int) } }
  let generic_result := c_generic_encode r1
  let size := generic_result.1
  let chosen_type := generic_result.2.1
  let r2 := r1.with_volatile generic_result.2.2
  match size with
  | none => (none, chosen_type, r2)
  | some n =>
    if chosen_type = PACKET_IR ∨ chosen_type = PACKET_IR_DYN then
      (some n, chosen_type, { r2 with old_udp := udp, old_rtp := rtp })
    else
      (some n, chosen_type, r2)

/- ================== ROHCv2 IP-only compression profile ================== -/

/-- Packet types of rohc_packets.h used by the ROHCv2 profiles. -/
inductive rohc_packet_v2 : Type
  | ROHC_PACKET_IR
  | ROHC_PACKET_NORMAL
  | ROHC_PACKET_CO_REPAIR
  | ROHC_PACKET_CO_COMMON
  | ROHC_PACKET_PT_0_CRC3
  | ROHC_PACKET_NORTP_PT_0_CRC7
  | ROHC_PACKET_NORTP_PT_1_SEQ_ID
  | ROHC_PACKET_NORTP_PT_2_SEQ_ID
  | ROHC_PACKET_UNKNOWN
  deriving DecidableEq, Repr

/-- Compressor states of rohc_comp_internals.h (IR, FO, SO). -/
inductive rohc_comp_state_t : Type
  | ROHC_COMP_STATE_IR
  | ROHC_COMP_STATE_FO
  | ROHC_COMP_STATE_SO
  deriving DecidableEq, Repr

/-- Embedding of the packet selection of rohc_comp_rfc5225_ip_code_packet of
src/src/comp/comp_rfc5225_ip.c: pick the packet type from the context state
(IR state gives an IR packet, FO state a Normal packet, any other state is an
internal error modelled by the false flag together with the UNKNOWN type) and
maintain the ir_count and fo_count confidence counters. -/
def rohc_comp_rfc5225_ip_code_packet (state : rohc_comp_state_t)
    (ir_count fo_count : Nat) : rohc_packet_v2 × Bool × Nat × Nat :=
  match state with
  | rohc_comp_state_t.ROHC_COMP_STATE_IR =>
    (rohc_packet_v2.ROHC_PACKET_IR, true, ir_count + 1, fo_count)
  | rohc_comp_state_t.ROHC_COMP_STATE_FO =>
    (rohc_packet_v2.ROHC_PACKET_NORMAL, true, ir_count, fo_count + 1)
  | rohc_comp_state_t.ROHC_COMP_STATE_SO =>
    (rohc_packet_v2.ROHC_PACKET_UNKNOWN, false, ir_count, fo_count)

/-- CID encoding kinds of the library (small or large CID space). -/
inductive rohc_cid_type_t : Type
  | ROHC_SMALL_CID
  | ROHC_LARGE_CID
  deriving DecidableEq, Repr

/-- Modelled from the spec: code_cid_values of schemes/cid.c, which is not
under src/.  For small CIDs an add-CID octet 1110 CCCC precedes the first
octet when the CID is not 0; for large CIDs the CID is SDVL-encoded after the
first octet.  The result gives the packet bytes up to and including the
reserved first octet position (filled with 0 here), the index of that first
octet and the next write position, or none when the buffer is too small. -/
def code_cid_values (cid_type : rohc_cid_type_t) (cid : Nat) (max_len : Nat) :
    Option (List Nat × Nat × Nat) :=
  match cid_type with
  | rohc_cid_type_t.ROHC_SMALL_CID =>
    if cid = 0 then
      if max_len < 1 then none else some ([0], 0, 1)
    else
      if max_len < 2 then none else some ([224 + cid % 16, 0], 1, 2)
  | rohc_cid_type_t.ROHC_LARGE_CID =>
    let cid_bytes := c_encodeSdvl cid
    if max_len < 1 + cid_bytes.length then none
    else some (0 :: cid_bytes, 0, 1 + cid_bytes.length)

/-- Modelled from the spec: the CRC engine of crc.c, which is not under src/.
The spec describes 3, 7 and 8 bit CRCs with the RFC 3095 §5.9.1 polynomials
computed through precomputed 256-entry tables; this is the bitwise computation
of one table entry for the reflected polynomial poly. -/
def crc_table_entry (poly : Nat) : Nat → Nat → Nat
  | 0, crc => crc
  | n + 1, crc =>
    crc_table_entry poly n (if crc % 2 = 1 then (crc / 2) ^^^ poly else crc / 2)

/-- Modelled from the spec: crc_calculate of crc.c for the 8-bit CRC, with the
reflected polynomial 0xe0 of RFC 3095 §5.9.1 and initial value 0xff. -/
def crc_calculate_8 (bytes : List Nat) (init_val : Nat) : Nat :=
  bytes.foldl (fun crc b => crc_table_entry 224 8 ((b % 256) ^^^ (crc % 256))) init_val

/-- Modelled from the spec: crc_calculate of crc.c for the 3-bit CRC, with the
reflected polynomial 0x6 of RFC 3095 §5.9.1 and initial value 0x7. -/
def crc_calculate_3 (bytes : List Nat) (init_val : Nat) : Nat :=
  bytes.foldl (fun crc b => crc_table_entry 6 8 ((b % 256) ^^^ (crc % 8))) init_val

/-- Profile identifier ROHCv2_PROFILE_IP (0x0104) of the ROHCv2 IP-only
profile, from the profile id table of the spec. -/
def ROHCv2_PROFILE_IP : Nat := 260

/-- Embedding of rohc_comp_rfc5225_ip_code_IR_packet of
src/src/comp/comp_rfc5225_ip.c: build the IR packet of the ROHCv2 IP-only
compressor for the given CID.  The bytes are the CID bytes with the reserved
first octet position filled with 0xfc, then the profile byte and the CRC-8
computed over all the preceding bytes; no static or dynamic chain is
emitted. -/
def rohc_comp_rfc5225_ip_code_IR_packet (cid_type : rohc_cid_type_t) (cid : Nat)
    (rohc_pkt_max_len : Nat) : Option (List Nat) :=
  match code_cid_values cid_type cid rohc_pkt_max_len with
  | none => none
  | some (cid_bytes, first_position, counter) =>
    let pkt := cid_bytes.set first_position 252
    if rohc_pkt_max_len - counter < 2 then none
    else
      let pkt := pkt ++ [ROHCv2_PROFILE_IP % 256]
      let crc := crc_calculate_8 pkt 255
      some (pkt ++ [crc])

/-- Bit 7 accessor GET_BIT_7 of rohc_bit_ops.h applied to a byte value. -/
def GET_BIT_7 (b : Nat) : Nat := b / 128 % 2

/-- Bit 4 accessor GET_BIT_4 of rohc_bit_ops.h applied to a byte value. -/
def GET_BIT_4 (b : Nat) : Nat := b / 16 % 2

/-- Bits 5 to 7 accessor GET_BIT_5_7 of rohc_bit_ops.h applied to a byte
value. -/
def GET_BIT_5_7 (b : Nat) : Nat := b / 32 % 8

/-- Bits 0 to 7 accessor GET_BIT_0_7 of rohc_bit_ops.h applied to a byte
value. -/
def GET_BIT_0_7 (b : Nat) : Nat := b % 256

/-- Packet type discriminator ROHC_PACKET_TYPE_IR of
rohc_decomp_detect_packet.h, documented in the source comments as the 8-bit
discriminator 11111101. -/
def ROHC_PACKET_TYPE_IR : Nat := 253

/-- Packet type discriminator ROHC_PACKET_TYPE_CO_REPAIR of
rohc_decomp_detect_packet.h, documented in the source comments as the 8-bit
discriminator 11111011. -/
def ROHC_PACKET_TYPE_CO_REPAIR : Nat := 251

/-- Embedding of decomp_rfc5225_ip_udp_rtp_detect_pkt_type of
src/src/decomp/decomp_rfc5225_ip_udp_rtp.c: detect the ROHC packet type from
the first byte of the packet. -/
def decomp_rfc5225_ip_udp_rtp_detect_pkt_type (rohc_packet : List Nat) :
    rohc_packet_v2 :=
  let b0 := rohc_packet.getD 0 0
  if GET_BIT_7 b0 = 0 then
    rohc_packet_v2.ROHC_PACKET_PT_0_CRC3
  else if GET_BIT_5_7 b0 = 4 then
    rohc_packet_v2.ROHC_PACKET_NORTP_PT_0_CRC7
  else if GET_BIT_5_7 b0 = 5 then
    rohc_packet_v2.ROHC_PACKET_NORTP_PT_1_SEQ_ID
  else if GET_BIT_5_7 b0 = 6 then
    rohc_packet_v2.ROHC_PACKET_NORTP_PT_2_SEQ_ID
  else if GET_BIT_0_7 b0 = 250 then
    rohc_packet_v2.ROHC_PACKET_CO_COMMON
  else if b0 = ROHC_PACKET_TYPE_CO_REPAIR then
    rohc_packet_v2.ROHC_PACKET_CO_REPAIR
  else if b0 = ROHC_PACKET_TYPE_IR then
    rohc_packet_v2.ROHC_PACKET_IR
  else
    rohc_packet_v2.ROHC_PACKET_UNKNOWN

/- ================== ROHCv2 IP/UDP decompression profile ================== -/

/-- IP-ID behavior constant ROHC_IP_ID_BEHAVIOR_SEQ of the library. -/
def ROHC_IP_ID_BEHAVIOR_SEQ : Nat := 0

/-- IP-ID behavior constant ROHC_IP_ID_BEHAVIOR_SEQ_SWAP of the library. -/
def ROHC_IP_ID_BEHAVIOR_SEQ_SWAP : Nat := 1

/-- IP-ID behavior constant ROHC_IP_ID_BEHAVIOR_RAND of the library. -/
def ROHC_IP_ID_BEHAVIOR_RAND : Nat := 2

/-- IP-ID behavior constant ROHC_IP_ID_BEHAVIOR_ZERO of the library. -/
def ROHC_IP_ID_BEHAVIOR_ZERO : Nat := 3

/-- Reordering offset constant ROHC_REORDERING_NONE of the library. -/
def ROHC_REORDERING_NONE : Nat := 0

/-- Reordering offset constant ROHC_REORDERING_QUARTER of the library. -/
def ROHC_REORDERING_QUARTER : Nat := 1

/-- Reordering offset constant ROHC_REORDERING_HALF of the library. -/
def ROHC_REORDERING_HALF : Nat := 2

/-- Reordering offset constant ROHC_REORDERING_THREEQUARTERS of the library. -/
def ROHC_REORDERING_THREEQUARTERS : Nat := 3

/-- Maximal number of IP headers a profile handles (ROHC_MAX_IP_HDRS of
rohc_internal.h, value 2). -/
def ROHC_MAX_IP_HDRS : Nat := 2

/-- CRC kinds of the library (schemes/decomp_crc.h). -/
inductive rohc_crc_type_t : Type
  | ROHC_CRC_TYPE_NONE
  | ROHC_CRC_TYPE_3
  | ROHC_CRC_TYPE_7
  | ROHC_CRC_TYPE_8
  deriving DecidableEq, Repr

/-- CRC information extracted from a ROHC packet (struct rohc_decomp_crc). -/
structure rohc_decomp_crc : Type where
  typ : rohc_crc_type_t
  bits : Nat
  bits_nr : Nat
  deriving DecidableEq, Repr

/-- One IP header recorded in the persistent decompression context
(ip_context_t of schemes/ip_ctxt.h).  The C type overlays vx, v4 and v6
variants in a union whose common prefix is the vx part; the model flattens the
union into one record.  The version field outside the union and the version
field of the vx part are kept separate, as the source reads both.  The source
and destination addresses serve the v4 variant (4 bytes used) as well as the
v6 variant (16 bytes used). -/
structure ip_context_t : Type where
  version : Nat
  vx_version : Nat
  tos_tc : Nat
  ttl_hopl : Nat
  next_header : Nat
  ip_id_behavior : Nat
  df : Nat
  ip_id : Nat
  src_addr : List Nat
  dst_addr : List Nat
  flow_label : Nat
  deriving DecidableEq, Repr

/-- Zero-initialised IP context entry, as produced by the calloc of
decomp_rfc5225_ip_udp_rtp_new_context. -/
def default_ip_context : ip_context_t :=
  { version := 0, vx_version := 0, tos_tc := 0, ttl_hopl := 0, next_header := 0,
    ip_id_behavior := 0, df := 0, ip_id := 0,
    src_addr := List.replicate 16 0, dst_addr := List.replicate 16 0,
    flow_label := 0 }

/-- Persistent part of the ROHCv2 IP/UDP decompression context (struct
rohc_decomp_rfc5225_ip_udp_rtp_ctxt of the source).  The two W-LSB decoding
contexts are represented by their reference values; the list of IP contexts
carries ip_contexts_nr as its length.  The reorder ratio field of the source
is named reorder_r here. -/
structure rohc_decomp_rfc5225_ip_udp_rtp_ctxt : Type where
  msn_lsb_ref : Nat
  ip_id_offset_lsb_ref : Nat
  reorder_r : Nat
  ip_contexts : List ip_context_t
  udp_sport : Nat
  udp_dport : Nat
  udp_checksum_used : Bool
  rtp_ssrc : Nat
  deriving DecidableEq, Repr

/-- Bits extracted for one IP header (struct rohc_rfc5225_ip_bits of the
source).  The embedded W-LSB field id of the source is flattened into
id_bits, id_bits_nr and id_p. -/
structure rohc_rfc5225_ip_bits : Type where
  version : Nat
  tos_tc_bits : Nat
  tos_tc_bits_nr : Nat
  id_behavior : Nat
  id_behavior_nr : Nat
  id_bits : Nat
  id_bits_nr : Nat
  id_p : Int
  df : Nat
  df_nr : Nat
  ttl_hl : Nat
  ttl_hl_nr : Nat
  proto : Nat
  proto_nr : Nat
  flowid : Nat
  flowid_nr : Nat
  saddr : List Nat
  saddr_nr : Nat
  daddr : List Nat
  daddr_nr : Nat
  deriving DecidableEq, Repr

/-- Bits extracted from a ROHCv2 IP/UDP packet (struct rohc_rfc5225_bits of
the source).  The fixed array ip together with its count ip_nr is modelled as
a list whose length is the count; the reorder ratio field of the source is
named reorder_r here. -/
structure rohc_rfc5225_bits : Type where
  ip : List rohc_rfc5225_ip_bits
  msn_bits : Nat
  msn_bits_nr : Nat
  reorder_r : Nat
  reorder_r_nr : Nat
  outer_ip_flag : Nat
  outer_ip_flag_nr : Nat
  ctrl_crc : rohc_decomp_crc
  udp_sport : Nat
  udp_sport_nr : Nat
  udp_dport : Nat
  udp_dport_nr : Nat
  udp_checksum : Nat
  udp_checksum_nr : Nat
  rtp_ssrc : Nat
  rtp_ssrc_nr : Nat
  deriving DecidableEq, Repr

/-- Decoded values for one IP header (struct rohc_rfc5225_decoded_ip). -/
structure rohc_rfc5225_decoded_ip : Type where
  version : Nat
  tos_tc : Nat
  id_behavior : Nat
  id : Nat
  df : Nat
  ttl : Nat
  proto : Nat
  flowid : Nat
  saddr : List Nat
  daddr : List Nat
  deriving DecidableEq, Repr

/-- Values decoded from the extracted bits (struct rohc_rfc5225_decoded); the
reorder ratio field of the source is named reorder_r here. -/
structure rohc_rfc5225_decoded : Type where
  ip : List rohc_rfc5225_decoded_ip
  msn : Nat
  reorder_r : Nat
  udp_sport : Nat
  udp_dport : Nat
  udp_checksum : Nat
  udp_checksum_used : Bool
  ssrc : Nat
  deriving DecidableEq, Repr

/-- Extracted IP bits with every field and bit count set to zero, as left by
decomp_rfc5225_ip_udp_rtp_reset_extr_bits. -/
def empty_ip_bits : rohc_rfc5225_ip_bits :=
  { version := 0, tos_tc_bits := 0, tos_tc_bits_nr := 0, id_behavior := 0,
    id_behavior_nr := 0, id_bits := 0, id_bits_nr := 0, id_p := 0, df := 0,
    df_nr := 0, ttl_hl := 0, ttl_hl_nr := 0, proto := 0, proto_nr := 0,
    flowid := 0, flowid_nr := 0, saddr := [], saddr_nr := 0, daddr := [],
    daddr_nr := 0 }

/-- Embedding of decomp_rfc5225_ip_udp_rtp_reset_extr_bits of the source:
reset the extracted bits before parsing.  The per-IP bits, the IP count, the
MSN, reorder ratio, outer_ip_flag counts and the control CRC are cleared; when
the context already handled at least one packet the list of IP headers is
initialised from the context (version and next header).  The UDP fields of
the previous extraction are kept, as in the source. -/
def decomp_rfc5225_ip_udp_rtp_reset_extr_bits
    (ctxt : rohc_decomp_rfc5225_ip_udp_rtp_ctxt) (num_recv_packets : Nat)
    (bits : rohc_rfc5225_bits) : rohc_rfc5225_bits :=
  { bits with
    ip := if num_recv_packets ≥ 1 then
            ctxt.ip_contexts.map (fun c =>
              { empty_ip_bits with version := c.version,
                                   proto := c.next_header, proto_nr := 8 })
          else [],
    msn_bits_nr := 0,
    reorder_r_nr := 0,
    outer_ip_flag_nr := 0,
    ctrl_crc := { typ := rohc_crc_type_t.ROHC_CRC_TYPE_NONE, bits := 0, bits_nr := 0 } }

/-- Embedding of decomp_rfc5225_ip_udp_rtp_parse_static_ip of the source:
parse the static part of one IP header.  The ipv4_static_t, ipv6_static_nofl_t
and ipv6_static_fl_t wire layouts of protocols/rfc5225.h (not under src/) are
the RFC 5225 ones used by the source: a version flag in bit 7, the innermost
flag in bit 6, then the reserved bits (6 bits for IPv4; for IPv6 a 1-bit
reserved field in bit 5, the flow-label discriminator in bit 4 and 4 more
reserved or flow-label-msb bits in bits 0 to 3).  Returns the updated IP bits,
the innermost flag and the number of bytes read, or none when the packet is
malformed. -/
def decomp_rfc5225_ip_udp_rtp_parse_static_ip (data : List Nat)
    (ip_bits : rohc_rfc5225_ip_bits) :
    Option (rohc_rfc5225_ip_bits × Bool × Nat) :=
  if data.length < 1 then none
  else
    let b0 := data.getD 0 0
    if GET_BIT_7 b0 = 0 then
      if data.length < 10 then none
      else
        let is_innermost := b0 / 64 % 2 = 1
        if b0 % 64 ≠ 0 then none
        else
          some ({ ip_bits with version := IPV4,
                               proto := data.getD 1 0, proto_nr := 8,
                               saddr := (data.drop 2).take 4, saddr_nr := 32,
                               daddr := (data.drop 6).take 4, daddr_nr := 32 },
                is_innermost, 10)
    else if GET_BIT_4 b0 = 0 then
      if data.length < 34 then none
      else
        let is_innermost := b0 / 64 % 2 = 1
        if b0 / 32 % 2 ≠ 0 then none
        else if b0 % 16 ≠ 0 then none
        else
          some ({ ip_bits with version := IPV6,
                               flowid := 0, flowid_nr := 20,
                               proto := data.getD 1 0, proto_nr := 8,
                               saddr := (data.drop 2).take 16, saddr_nr := 128,
                               daddr := (data.drop 18).take 16, daddr_nr := 128 },
                is_innermost, 34)
    else
      if data.length < 36 then none
      else
        let is_innermost := b0 / 64 % 2 = 1
        if b0 / 32 % 2 ≠ 0 then none
        else
          some ({ ip_bits with version := IPV6,
                               flowid := (b0 % 16) * 65536 +
                                         (data.getD 1 0) * 256 + data.getD 2 0,
                               flowid_nr := 20,
                               proto := data.getD 3 0, proto_nr := 8,
                               saddr := (data.drop 4).take 16, saddr_nr := 128,
                               daddr := (data.drop 20).take 16, daddr_nr := 128 },
                is_innermost, 36)

/-- Embedding of decomp_rfc5225_ip_udp_rtp_parse_static_udp of the source:
parse the 4-byte UDP static part (source and destination ports). -/
def decomp_rfc5225_ip_udp_rtp_parse_static_udp (data : List Nat)
    (bits : rohc_rfc5225_bits) : Option (rohc_rfc5225_bits × Nat) :=
  if data.length < 4 then none
  else
    some ({ bits with udp_sport := (data.getD 0 0) * 256 + data.getD 1 0,
                      udp_sport_nr := 16,
                      udp_dport := (data.getD 2 0) * 256 + data.getD 3 0,
                      udp_dport_nr := 16 }, 4)

/-- Loop of decomp_rfc5225_ip_udp_rtp_parse_static_chain of the source over
the IP headers of the static chain: parse one header after the other until
the innermost flag is found, failing when more than the given number of
headers (ROHC_MAX_IP_HDRS at the top call) would be needed.  The prev_ip list
supplies the context-initialised bits entry that each parsed header starts
from. -/
def parse_static_chain_ips (fuel : Nat) (prev_ip : List rohc_rfc5225_ip_bits)
    (data : List Nat) : Option (List rohc_rfc5225_ip_bits × Nat) :=
  match fuel with
  | 0 => none
  | fuel2 + 1 =>
    match decomp_rfc5225_ip_udp_rtp_parse_static_ip data
            (prev_ip.headD empty_ip_bits) with
    | none => none
    | some (ib, is_innermost, k) =>
      if is_innermost then some ([ib], k)
      else
        match parse_static_chain_ips fuel2 prev_ip.tail (data.drop k) with
        | none => none
        | some (rest, k2) => some (ib :: rest, k + k2)

/-- Embedding of decomp_rfc5225_ip_udp_rtp_parse_static_chain of the source:
parse the IP headers of the static chain and then the UDP static part.
Returns the updated bits and the chain length. -/
def decomp_rfc5225_ip_udp_rtp_parse_static_chain (data : List Nat)
    (bits : rohc_rfc5225_bits) : Option (rohc_rfc5225_bits × Nat) :=
  match parse_static_chain_ips ROHC_MAX_IP_HDRS bits.ip data with
  | none => none
  | some (ips, k) =>
    match decomp_rfc5225_ip_udp_rtp_parse_static_udp (data.drop k)
            { bits with ip := ips } with
    | none => none
    | some (bits2, k2) => some (bits2, k + k2)

/-- Embedding of decomp_rfc5225_ip_udp_rtp_parse_dyn_ip of the source: parse
the dynamic part of one IP header.  The ipv4_regular_dynamic wire layout of
protocols/rfc5225.h (not under src/) is the RFC 5225 one used by the source:
5 reserved bits, the DF bit and 2 IP-ID behavior bits in the first byte, then
TOS and TTL, then the 16-bit IP-ID unless the behavior is zero; the IPv6
dynamic part is TC then hop limit. -/
def decomp_rfc5225_ip_udp_rtp_parse_dyn_ip (data : List Nat)
    (ip_bits : rohc_rfc5225_ip_bits) : Option (rohc_rfc5225_ip_bits × Nat) :=
  if ip_bits.version = IPV4 then
    if data.length < 3 then none
    else
      let b0 := data.getD 0 0
      if b0 / 8 ≠ 0 then none
      else
        let ib := { ip_bits with df := b0 / 4 % 2, df_nr := 1,
                                 id_behavior := b0 % 4, id_behavior_nr := 2,
                                 tos_tc_bits := data.getD 1 0, tos_tc_bits_nr := 8,
                                 ttl_hl := data.getD 2 0, ttl_hl_nr := 8 }
        if b0 % 4 ≠ ROHC_IP_ID_BEHAVIOR_ZERO then
          if data.length < 5 then none
          else
            some ({ ib with id_bits := (data.getD 3 0) * 256 + data.getD 4 0,
                            id_bits_nr := 16 }, 5)
        else
          some (ib, 3)
  else
    if data.length < 2 then none
    else
      some ({ ip_bits with tos_tc_bits := data.getD 0 0, tos_tc_bits_nr := 8,
                           ttl_hl := data.getD 1 0, ttl_hl_nr := 8,
                           id_behavior := ROHC_IP_ID_BEHAVIOR_RAND,
                           id_behavior_nr := 2 }, 2)

/-- Embedding of decomp_rfc5225_ip_udp_rtp_parse_dyn_udp of the source: parse
the 5-byte UDP dynamic part (checksum, MSN and reorder ratio; the 6 reserved
bits of the last byte are not checked by the source). -/
def decomp_rfc5225_ip_udp_rtp_parse_dyn_udp (data : List Nat)
    (bits : rohc_rfc5225_bits) : Option (rohc_rfc5225_bits × Nat) :=
  if data.length < 5 then none
  else
    some ({ bits with udp_checksum := (data.getD 0 0) * 256 + data.getD 1 0,
                      udp_checksum_nr := 16,
                      msn_bits := (data.getD 2 0) * 256 + data.getD 3 0,
                      msn_bits_nr := 16,
                      reorder_r := data.getD 4 0 % 4,
                      reorder_r_nr := 2 }, 5)

/-- Loop of decomp_rfc5225_ip_udp_rtp_parse_dyn_chain of the source over the
IP headers recorded in the extracted bits. -/
def parse_dyn_chain_ips (ips : List rohc_rfc5225_ip_bits) (data : List Nat) :
    Option (List rohc_rfc5225_ip_bits × Nat) :=
  match ips with
  | [] => some ([], 0)
  | ib :: rest =>
    match decomp_rfc5225_ip_udp_rtp_parse_dyn_ip data ib with
    | none => none
    | some (ib2, k) =>
      match parse_dyn_chain_ips rest (data.drop k) with
      | none => none
      | some (rest2, k2) => some (ib2 :: rest2, k + k2)

/-- Embedding of decomp_rfc5225_ip_udp_rtp_parse_dyn_chain of the source:
parse the dynamic part of every IP header of the chain and then the UDP
dynamic part. -/
def decomp_rfc5225_ip_udp_rtp_parse_dyn_chain (data : List Nat)
    (bits : rohc_rfc5225_bits) : Option (rohc_rfc5225_bits × Nat) :=
  match parse_dyn_chain_ips bits.ip data with
  | none => none
  | some (ips, k) =>
    match decomp_rfc5225_ip_udp_rtp_parse_dyn_udp (data.drop k)
            { bits with ip := ips } with
    | none => none
    | some (bits2, k2) => some (bits2, k + k2)

/-- Embedding of decomp_rfc5225_ip_udp_rtp_parse_ir of the source: skip the
packet type octet, the large CID bytes and the profile octet, parse the CRC-8
octet, the static chain and the dynamic chain.  The minimal length of the
skipped part is guaranteed by rohc_decomp_find_context in the framework and
asserted by the source; the assertion is modelled as a parse failure.  On
success the result carries the extracted CRC, the extracted bits and the
header length. -/
def decomp_rfc5225_ip_udp_rtp_parse_ir (rohc_pkt : List Nat)
    (large_cid_len : Nat) (bits : rohc_rfc5225_bits) :
    Option (rohc_decomp_crc × rohc_rfc5225_bits × Nat) :=
  if rohc_pkt.length < 1 + large_cid_len + 1 then none
  else
    let remain := rohc_pkt.drop (1 + large_cid_len + 1)
    if remain.length < 1 then none
    else
      let extr_crc : rohc_decomp_crc :=
        { typ := rohc_crc_type_t.ROHC_CRC_TYPE_NONE,
          bits := remain.getD 0 0, bits_nr := 8 }
      match decomp_rfc5225_ip_udp_rtp_parse_static_chain (remain.drop 1) bits with
      | none => none
      | some (bits1, scl) =>
        match decomp_rfc5225_ip_udp_rtp_parse_dyn_chain
                ((remain.drop 1).drop scl) bits1 with
        | none => none
        | some (bits2, dcl) =>
          some (extr_crc, bits2, 1 + large_cid_len + 1 + 1 + scl + dcl)

/-- Embedding of decomp_rfc5225_ip_udp_rtp_parse_co_repair of the source:
check the minimal length, skip the discriminator octet and the large CID
bytes, parse the r1/CRC-7 octet and the r2/CRC-3 octet (rejecting non-zero r1
or r2 reserved fields), then parse the dynamic chain.  The co_repair_crc_t
layout of protocols/rfc5225.h (not under src/) is the one of the co_repair
format given by the spec: a zero bit then 7 header CRC bits, then 5 zero bits
and 3 control CRC bits. -/
def decomp_rfc5225_ip_udp_rtp_parse_co_repair (rohc_pkt : List Nat)
    (large_cid_len : Nat) (bits : rohc_rfc5225_bits) :
    Option (rohc_decomp_crc × rohc_rfc5225_bits × Nat) :=
  if rohc_pkt.length < 1 + large_cid_len + 2 then none
  else
    let remain := rohc_pkt.drop (1 + large_cid_len)
    let b0 := remain.getD 0 0
    let b1 := remain.getD 1 0
    if GET_BIT_7 b0 ≠ 0 then none
    else
      let hdr_crc : rohc_decomp_crc :=
        { typ := rohc_crc_type_t.ROHC_CRC_TYPE_7, bits := b0 % 128, bits_nr := 7 }
      if b1 / 8 ≠ 0 then none
      else
        let bits1 :=
          { bits with ctrl_crc := { typ := rohc_crc_type_t.ROHC_CRC_TYPE_3,
                                    bits := b1 % 8, bits_nr := 3 } }
        match decomp_rfc5225_ip_udp_rtp_parse_dyn_chain (remain.drop 2) bits1 with
        | none => none
        | some (bits2, dcl) =>
          some (hdr_crc, bits2, 1 + large_cid_len + 2 + dcl)

/-- Embedding of decomp_rfc5225_ip_udp_rtp_parse_pkt of the source: dispatch
on the detected packet type; only IR and co_repair packets are parsed, any
other type leaves the failure status set. -/
def decomp_rfc5225_ip_udp_rtp_parse_pkt (packet_type : rohc_packet_v2)
    (rohc_pkt : List Nat) (large_cid_len : Nat) (bits : rohc_rfc5225_bits) :
    Option (rohc_decomp_crc × rohc_rfc5225_bits × Nat) :=
  if packet_type = rohc_packet_v2.ROHC_PACKET_IR then
    decomp_rfc5225_ip_udp_rtp_parse_ir rohc_pkt large_cid_len bits
  else if packet_type = rohc_packet_v2.ROHC_PACKET_CO_REPAIR then
    decomp_rfc5225_ip_udp_rtp_parse_co_repair rohc_pkt large_cid_len bits
  else
    none

/- ================== ROHCv2 IP/UDP decode stage ================== -/

/-- Modelled from the spec: rohc_interval_get_rfc5225_msn_p of interval.c,
which is not under src/.  The spec describes the reorder ratio as a two-bit
channel characterisation used by ROHCv2 to size LSB interpretation intervals;
the offset is 1 for no reordering and a quarter, half or three quarters of the
interval (minus one) otherwise. -/
def rohc_interval_get_rfc5225_msn_p (k : Nat) (reorder_r : Nat) : Int :=
  if reorder_r = ROHC_REORDERING_QUARTER then (2 ^ k : Int) / 4 - 1
  else if reorder_r = ROHC_REORDERING_HALF then (2 ^ k : Int) / 2 - 1
  else if reorder_r = ROHC_REORDERING_THREEQUARTERS then (2 ^ k : Int) * 3 / 4 - 1
  else 1

/-- Modelled from the spec: rohc_lsb_decode of schemes/decomp_wlsb.c, which is
not under src/, at field width 16.  The spec contract of the W-LSB decoder:
given k received bits, the reference and the offset p, return the unique value
of the interpretation interval from ref minus p of width 2 to the k whose low
k bits match the received ones, with modular arithmetic at the field width. -/
def rohc_lsb_decode16 (ref : Nat) (bits : Nat) (k : Nat) (p : Int) : Option Nat :=
  if k ≥ 16 then some (bits % 65536)
  else
    let base : Nat := (((ref : Int) - p).emod 65536).toNat
    some ((base + (bits + 2 ^ k - base % 2 ^ k) % 2 ^ k) % 65536)

/-- Byte swap of a 16-bit value (swab16 of the library headers). -/
def swab16 (v : Nat) : Nat := (v % 256) * 256 + v / 256 % 256

/-- Modelled from the spec: d_ip_id_lsb of schemes/rfc4996.c, which is not
under src/.  The spec describes the IP-ID offset scheme: the transmitted bits
are W-LSB bits of the offset between IP-ID and MSN, so the decoder recovers
the offset and adds the MSN back, at width 16. -/
def d_ip_id_lsb (ip_id_offset_ref : Nat) (decoded_msn : Nat) (bits : Nat)
    (bits_nr : Nat) (p : Int) : Option Nat :=
  match rohc_lsb_decode16 ip_id_offset_ref bits bits_nr p with
  | none => none
  | some off => some ((off + decoded_msn) % 65536)

/-- Sixteen-bit wraparound sum base plus (msn minus ref), as computed by the
uint16 and int16 arithmetic of the inferred sequential IP-ID branch of the
source. -/
def u16_add_msn_delta (base msn ref : Nat) : Nat :=
  (base % 65536 + msn % 65536 + 65536 - ref % 65536) % 65536

/-- Embedding of decomp_rfc5225_ip_udp_rtp_decode_bits_ip_hdr of the source:
decode the fields of one IP header from the extracted bits and the recorded
IP context.  The W-LSB reference values of the persistent context stand in
for the two LSB decoding contexts the source passes around.  The build is
modelled without the strict-decompressor compile-time option, so a non-zero
DF for an IPv6 header is only a warning. -/
def decomp_rfc5225_ip_udp_rtp_decode_bits_ip_hdr (msn_lsb_ref : Nat)
    (ip_id_offset_lsb_ref : Nat) (ip_bits : rohc_rfc5225_ip_bits)
    (ip_ctxt : ip_context_t) (decoded_msn : Nat) :
    Option rohc_rfc5225_decoded_ip :=
  let version := ip_bits.version
  let tos_tc :=
    if ip_bits.tos_tc_bits_nr > 0 then ip_bits.tos_tc_bits else ip_ctxt.tos_tc
  let ip_id_behavior :=
    if ip_bits.id_behavior_nr > 0 then ip_bits.id_behavior
    else ip_ctxt.ip_id_behavior
  let id_opt : Option Nat :=
    if ip_bits.version = IPV4 then
      if ip_bits.id_bits_nr = 16 then some ip_bits.id_bits
      else if ip_bits.id_bits_nr > 0 then
        if ip_id_behavior > ROHC_IP_ID_BEHAVIOR_SEQ_SWAP then none
        else
          match d_ip_id_lsb ip_id_offset_lsb_ref decoded_msn ip_bits.id_bits
                  ip_bits.id_bits_nr ip_bits.id_p with
          | none => none
          | some v =>
            if ip_id_behavior = ROHC_IP_ID_BEHAVIOR_SEQ_SWAP then some (swab16 v)
            else some v
      else
        if ip_id_behavior = ROHC_IP_ID_BEHAVIOR_ZERO then some 0
        else if ip_id_behavior = ROHC_IP_ID_BEHAVIOR_SEQ then
          some (u16_add_msn_delta ip_ctxt.ip_id decoded_msn msn_lsb_ref)
        else if ip_id_behavior = ROHC_IP_ID_BEHAVIOR_SEQ_SWAP then
          some (swab16 (u16_add_msn_delta (swab16 ip_ctxt.ip_id) decoded_msn
                          msn_lsb_ref))
        else none
    else if ip_bits.id_bits_nr > 0 then none
    else some 0
  match id_opt with
  | none => none
  | some id =>
    let ttl := if ip_bits.ttl_hl_nr = 8 then ip_bits.ttl_hl else ip_ctxt.ttl_hopl
    let df := if version = IPV4 then
                (if ip_bits.df_nr > 0 then ip_bits.df else ip_ctxt.df)
              else 0
    let proto := if ip_bits.proto_nr > 0 then ip_bits.proto else ip_ctxt.next_header
    let flowid := if version = IPV6 then
                    (if ip_bits.flowid_nr > 0 then ip_bits.flowid
                     else ip_ctxt.flow_label)
                  else 0
    let saddr := if ip_bits.saddr_nr > 0 then (ip_bits.saddr.take (ip_bits.saddr_nr / 8))
                 else if version = IPV4 then ip_ctxt.src_addr.take 4
                 else ip_ctxt.src_addr.take 16
    let daddr := if ip_bits.daddr_nr > 0 then (ip_bits.daddr.take (ip_bits.daddr_nr / 8))
                 else if version = IPV4 then ip_ctxt.dst_addr.take 4
                 else ip_ctxt.dst_addr.take 16
    some { version := version, tos_tc := tos_tc, id_behavior := ip_id_behavior,
           id := id, df := df, ttl := ttl, proto := proto, flowid := flowid,
           saddr := saddr, daddr := daddr }

/-- Loop of decomp_rfc5225_ip_udp_rtp_decode_bits_ip_hdrs of the source over
the extracted IP headers paired with the recorded IP contexts. -/
def decode_bits_ip_hdrs_loop (msn_lsb_ref ip_id_offset_lsb_ref decoded_msn : Nat) :
    List rohc_rfc5225_ip_bits → List ip_context_t →
    Option (List rohc_rfc5225_decoded_ip)
  | [], _ => some []
  | ib :: rest, ctxts =>
    match decomp_rfc5225_ip_udp_rtp_decode_bits_ip_hdr msn_lsb_ref
            ip_id_offset_lsb_ref ib (ctxts.headD default_ip_context) decoded_msn with
    | none => none
    | some d =>
      match decode_bits_ip_hdrs_loop msn_lsb_ref ip_id_offset_lsb_ref decoded_msn
              rest ctxts.tail with
      | none => none
      | some ds => some (d :: ds)

/-- Ordered list of the IP-ID behaviors fed to the control CRC: the loop of
decomp_rfc5225_ip_udp_rtp_decode_bits keeps the extracted behavior of each
header whose recorded context version is IPv4 and skips the others (IPv6
headers are excluded per errata 2703 of RFC 5225). -/
def ctrl_crc_ip_id_behaviors :
    List rohc_rfc5225_ip_bits → List ip_context_t → List Nat
  | [], _ => []
  | ib :: rest, ctxts =>
    if (ctxts.headD default_ip_context).vx_version = IPV4 then
      ib.id_behavior :: ctrl_crc_ip_id_behaviors rest ctxts.tail
    else
      ctrl_crc_ip_id_behaviors rest ctxts.tail

/-- Modelled from the spec: compute_crc_ctrl_fields of crc.c, which is not
under src/.  The spec defines the ROHCv2 control CRC as the 3-bit CRC over the
reorder ratio, the MSN and the ordered list of IPv4 IP-ID behaviors. -/
def compute_crc_ctrl_fields (reorder_r : Nat) (msn : Nat)
    (ip_id_behaviors : List Nat) : Nat :=
  crc_calculate_3 ([reorder_r] ++ be16 msn ++ ip_id_behaviors) 7

/-- Embedding of decomp_rfc5225_ip_udp_rtp_decode_bits of the source: decode
the MSN, the UDP fields and the reorder ratio from the extracted bits or the
context, decode every IP header, and when the packet carried a control CRC
compare the CRC-3 computed over the decoded reorder ratio, the decoded MSN and
the IP-ID behaviors of the IPv4 headers with the received control CRC bits,
failing on mismatch. -/
def decomp_rfc5225_ip_udp_rtp_decode_bits
    (ctxt : rohc_decomp_rfc5225_ip_udp_rtp_ctxt) (bits : rohc_rfc5225_bits) :
    Option rohc_rfc5225_decoded :=
  let msn_opt : Option Nat :=
    if bits.msn_bits_nr = 16 then some bits.msn_bits
    else
      let p := rohc_interval_get_rfc5225_msn_p bits.msn_bits_nr bits.reorder_r
      match rohc_lsb_decode16 ctxt.msn_lsb_ref bits.msn_bits bits.msn_bits_nr p with
      | none => none
      | some v => some (v % 65536)
  match msn_opt with
  | none => none
  | some msn =>
    let udp_sport := if bits.udp_sport_nr = 16 then bits.udp_sport else ctxt.udp_sport
    let udp_dport := if bits.udp_dport_nr = 16 then bits.udp_dport else ctxt.udp_dport
    let udp_checksum := if bits.udp_checksum_nr = 16 then bits.udp_checksum else 0
    let udp_checksum_used :=
      if bits.udp_checksum_nr = 16 then bits.udp_checksum ≠ 0
      else ctxt.udp_checksum_used
    let reorder_r := if bits.reorder_r_nr > 0 then bits.reorder_r else ctxt.reorder_r
    match decode_bits_ip_hdrs_loop ctxt.msn_lsb_ref ctxt.ip_id_offset_lsb_ref msn
            bits.ip ctxt.ip_contexts with
    | none => none
    | some decoded_ips =>
      let decoded : rohc_rfc5225_decoded :=
        { ip := decoded_ips, msn := msn, reorder_r := reorder_r,
          udp_sport := udp_sport, udp_dport := udp_dport,
          udp_checksum := udp_checksum, udp_checksum_used := udp_checksum_used,
          ssrc := 0 }
      if bits.ctrl_crc.typ ≠ rohc_crc_type_t.ROHC_CRC_TYPE_NONE then
        let behaviors := ctrl_crc_ip_id_behaviors bits.ip ctxt.ip_contexts
        let ctrl_crc_computed :=
          compute_crc_ctrl_fields decoded.reorder_r decoded.msn behaviors
        if ctrl_crc_computed ≠ bits.ctrl_crc.bits then none else some decoded
      else
        some decoded

/- ================== ROHCv2 IP/UDP context update ================== -/

/-- Loop of decomp_rfc5225_ip_udp_rtp_update_ctxt of the source over the
decoded IP headers: refresh each recorded IP context entry from the decoded
values, keeping the stale fields of the other IP version as the in-place
array update of the source does. -/
def update_ctxt_ips : List rohc_rfc5225_decoded_ip → List ip_context_t →
    List ip_context_t
  | [], _ => []
  | d :: rest, olds =>
    let old := olds.headD default_ip_context
    let c := { old with version := d.version, vx_version := d.version,
                        tos_tc := d.tos_tc, ttl_hopl := d.ttl,
                        next_header := d.proto, ip_id_behavior := d.id_behavior }
    let c := if d.version = IPV4 then
               { c with df := d.df, ip_id := d.id,
                        src_addr := d.saddr.take 4, dst_addr := d.daddr.take 4 }
             else
               { c with flow_label := d.flowid,
                        src_addr := d.saddr.take 16, dst_addr := d.daddr.take 16 }
    c :: update_ctxt_ips rest olds.tail

/-- Embedding of decomp_rfc5225_ip_udp_rtp_update_ctxt of the source: commit
the decoded MSN as the new W-LSB reference, refresh the recorded IP contexts,
commit the innermost IP-ID offset reference when the innermost header is IPv4
(with the byte-swapped variant for the sequential-swapped behavior) and record
whether the UDP checksum is used. -/
def decomp_rfc5225_ip_udp_rtp_update_ctxt
    (ctxt : rohc_decomp_rfc5225_ip_udp_rtp_ctxt)
    (decoded : rohc_rfc5225_decoded) : rohc_decomp_rfc5225_ip_udp_rtp_ctxt :=
  let msn := decoded.msn
  let new_ips := update_ctxt_ips decoded.ip ctxt.ip_contexts
  let new_ip_id_offset_ref :=
    match decoded.ip.getLast? with
    | some d =>
      if d.version = IPV4 then
        if d.id_behavior = ROHC_IP_ID_BEHAVIOR_SEQ_SWAP then
          (swab16 d.id + 65536 - msn % 65536) % 65536
        else
          (d.id % 65536 + 65536 - msn % 65536) % 65536
      else ctxt.ip_id_offset_lsb_ref
    | none => ctxt.ip_id_offset_lsb_ref
  { ctxt with msn_lsb_ref := msn % 65536,
              ip_contexts := new_ips,
              ip_id_offset_lsb_ref := new_ip_id_offset_ref,
              udp_checksum_used := decoded.udp_checksum_used }

/- ================== modelled top-level decompression ================== -/

/-- Status codes of the public decompression interface (rohc_status_t). -/
inductive rohc_status_t : Type
  | ROHC_STATUS_OK
  | ROHC_STATUS_MALFORMED
  | ROHC_STATUS_BAD_CRC
  | ROHC_STATUS_ERROR
  deriving DecidableEq, Repr

/-- Modelled from the spec: the top-level decompression pipeline of
rohc_decomp.c, which is not under src/.  The spec states that every
parse/decode step returns a status and that the top-level decompress gates the
context commit on full success (parse AND decode AND CRC), never writing
partial state back.  The validation of the CRC carried by the packet against
the rebuilt uncompressed headers (and of the IR CRC-8 over the IR octets) is
delegated to the crc_ok verdict argument, keeping the gating structure
explicit while abstracting the byte-level header rebuild. -/
def rohc_decomp_decompress
    (crc_ok : rohc_rfc5225_decoded → rohc_decomp_crc → Bool)
    (ctxt : rohc_decomp_rfc5225_ip_udp_rtp_ctxt) (num_recv_packets : Nat)
    (prev_bits : rohc_rfc5225_bits) (rohc_pkt : List Nat) (large_cid_len : Nat) :
    rohc_status_t × rohc_decomp_rfc5225_ip_udp_rtp_ctxt :=
  let packet_type := decomp_rfc5225_ip_udp_rtp_detect_pkt_type rohc_pkt
  let bits0 := decomp_rfc5225_ip_udp_rtp_reset_extr_bits ctxt num_recv_packets
                 prev_bits
  match decomp_rfc5225_ip_udp_rtp_parse_pkt packet_type rohc_pkt large_cid_len
          bits0 with
  | none => (rohc_status_t.ROHC_STATUS_MALFORMED, ctxt)
  | some parsed =>
    let extr_crc := parsed.1
    let bits := parsed.2.1
    match decomp_rfc5225_ip_udp_rtp_decode_bits ctxt bits with
    | none => (rohc_status_t.ROHC_STATUS_BAD_CRC, ctxt)
    | some decoded =>
      if crc_ok decoded extr_crc then
        (rohc_status_t.ROHC_STATUS_OK,
         decomp_rfc5225_ip_udp_rtp_update_ctxt ctxt decoded)
      else
        (rohc_status_t.ROHC_STATUS_BAD_CRC, ctxt)

/- ================== theorems for the claims ================== -/

/-- C7: for the RFC 3095 RTP profile, whenever at least one RTP dynamic field
(SSRC, PT, CC) changed in the current packet (send_rtp_dynamic > 0),
c_rtp_decide_extension returns extension type 3; otherwise it falls back to
the generic extension decision shared by the IP-based profiles. -/
theorem c_rtp_decide_extension_forces_ext3
    (decide_ext : c_generic_context → rohc_ext_t)
    (g : c_generic_context) (r : sc_rtp_context) :
    (r.tmp.send_rtp_dynamic > 0 →
      c_rtp_decide_extension decide_ext g r = rohc_ext_t.PACKET_EXT_3) ∧
    (¬ r.tmp.send_rtp_dynamic > 0 →
      c_rtp_decide_extension decide_ext g r = decide_ext g) := by
  constructor <;> intro h <;> simp [c_rtp_decide_extension, h]

/-- Witness for C7 at a concrete context with one changed RTP dynamic field. -/
theorem c_rtp_decide_extension_forces_ext3_witness :
    ({ udp_checksum_change_count := 3,
       old_udp := { source := 4, dest := 5, len := 0, check := 0 },
       rtp_pt_change_count := 3,
       old_rtp := { version := 2, padding := 0, ext_bit := 0, cc := 0, m := 0,
                    pt := 8, sn := 1, timestamp := 160, ssrc := 9 },
       ts_sc := { state := ts_sc_state.SEND_SCALED, ts_stride := 160,
                  ts_delta := 160, nr_init_stride_packets := 3 },
       tmp := { send_rtp_dynamic := 1, timestamp := 160, ts_send := 0,
                nr_ts_bits := 0, m_set := 0,
                rtp_pt_changed := 0 } } : sc_rtp_context).tmp.send_rtp_dynamic > 0 ∧
    c_rtp_decide_extension (fun _ => rohc_ext_t.PACKET_NOEXT)
      { sn := 1, ir_dyn_count := 3,
        ip_flags := { version := 4, info_v4 := { rnd := false } },
        ip2_flags := { version := 4, info_v4 := { rnd := false } },
        tmp := { nr_of_ip_hdr := 1, send_static := 0, send_dynamic := 0,
                 nr_sn_bits := 4, nr_ip_id_bits := 0, nr_ip_id_bits2 := 0,
                 packet_type := PACKET_UNKNOWN } }
      { udp_checksum_change_count := 3,
        old_udp := { source := 4, dest := 5, len := 0, check := 0 },
        rtp_pt_change_count := 3,
        old_rtp := { version := 2, padding := 0, ext_bit := 0, cc := 0, m := 0,
                     pt := 8, sn := 1, timestamp := 160, ssrc := 9 },
        ts_sc := { state := ts_sc_state.SEND_SCALED, ts_stride := 160,
                   ts_delta := 160, nr_init_stride_packets := 3 },
        tmp := { send_rtp_dynamic := 1, timestamp := 160, ts_send := 0,
                 nr_ts_bits := 0, m_set := 0,
                 rtp_pt_changed := 0 } } = rohc_ext_t.PACKET_EXT_3 :=
  ⟨by decide,
   (c_rtp_decide_extension_forces_ext3 (fun _ => rohc_ext_t.PACKET_NOEXT) _ _).1
     (by decide)⟩

/-- C8: the ROHCv2 IP-only compressor emits only IR and Normal packets:
rohc_comp_rfc5225_ip_code_packet selects the IR packet type exactly when the
context state is IR and the Normal packet type exactly when the state is FO,
and no other packet type is produced for a context in state IR or FO. -/
theorem rohc_comp_rfc5225_ip_code_packet_ir_normal_only
    (state : rohc_comp_state_t) (ir_count fo_count : Nat) :
    ((rohc_comp_rfc5225_ip_code_packet state ir_count fo_count).1 =
       rohc_packet_v2.ROHC_PACKET_IR ↔
     state = rohc_comp_state_t.ROHC_COMP_STATE_IR) ∧
    ((rohc_comp_rfc5225_ip_code_packet state ir_count fo_count).1 =
       rohc_packet_v2.ROHC_PACKET_NORMAL ↔
     state = rohc_comp_state_t.ROHC_COMP_STATE_FO) ∧
    (state = rohc_comp_state_t.ROHC_COMP_STATE_IR ∨
     state = rohc_comp_state_t.ROHC_COMP_STATE_FO →
      (rohc_comp_rfc5225_ip_code_packet state ir_count fo_count).1 =
        rohc_packet_v2.ROHC_PACKET_IR ∨
      (rohc_comp_rfc5225_ip_code_packet state ir_count fo_count).1 =
        rohc_packet_v2.ROHC_PACKET_NORMAL) := by
  cases state <;> simp [rohc_comp_rfc5225_ip_code_packet]

/-- Witness for C8 at the IR state. -/
theorem rohc_comp_rfc5225_ip_code_packet_ir_normal_only_witness :
    (rohc_comp_rfc5225_ip_code_packet rohc_comp_state_t.ROHC_COMP_STATE_IR 0 0).1 =
      rohc_packet_v2.ROHC_PACKET_IR :=
  (rohc_comp_rfc5225_ip_code_packet_ir_normal_only
     rohc_comp_state_t.ROHC_COMP_STATE_IR 0 0).1.2 rfl

/-- C10: rtp_changed_rtp_dynamic counts 2 for a changed CC field, 1 for a
changed SSRC, and 1 when the PT differs or changed within the last
MAX_IR_COUNT packets; the UDP checksum presence change and the RTP Marker bit
are never counted, so the result always lies in the interval from 0 to 4. -/
theorem rtp_changed_rtp_dynamic_count
    (r : sc_rtp_context) (udp : udphdr) (rtp : rtphdr) :
    (rtp_changed_rtp_dynamic r udp rtp).1 =
      (if rtp.cc ≠ r.old_rtp.cc then 2 else 0) +
      (if rtp.ssrc ≠ r.old_rtp.ssrc then 1 else 0) +
      (if rtp.pt ≠ r.old_rtp.pt ∨ r.rtp_pt_change_count < MAX_IR_COUNT
       then 1 else 0) ∧
    (rtp_changed_rtp_dynamic r udp rtp).1 ≤ 4 := by
  simp only [rtp_changed_rtp_dynamic]
  split_ifs <;> simp_all

/-- C2: evaluation of the ROHCv2 IR packet-type octet on both sides.  The
ROHCv2 IP-only compressor emits 1111 1100 (0xfc) as the packet-type octet of
its IR packet (followed only by the profile byte and the CRC-8, without any
static or dynamic chain), while the ROHCv2 decompressor recognizes an IR
packet only for the octet 1111 1101 (0xfd) and classifies the octet emitted
by the compressor as an unknown packet type. -/
theorem rohc_rfc5225_ir_octet_mismatch :
    rohc_comp_rfc5225_ip_code_IR_packet rohc_cid_type_t.ROHC_SMALL_CID 0 100 =
      some [252, 4, 176] ∧
    (252 : Nat) ≠ ROHC_PACKET_TYPE_IR ∧
    decomp_rfc5225_ip_udp_rtp_detect_pkt_type [252, 4, 176] =
      rohc_packet_v2.ROHC_PACKET_UNKNOWN ∧
    decomp_rfc5225_ip_udp_rtp_detect_pkt_type [253, 4, 176] =
      rohc_packet_v2.ROHC_PACKET_IR := by
  refine ⟨?_, by decide, by decide, by decide⟩
  decide

/-- C6: every invocation of rtp_code_dynamic_rtp_part that transmits
TS_STRIDE while the scaled-TS machine is in state INIT_STRIDE (the stride is
transmitted whenever the TS is not constant in that state, provided TS_STRIDE
is SDVL-encodable) increments nr_init_stride_packets by one, and the state
moves from INIT_STRIDE to SEND_SCALED exactly when that counter reaches
ROHC_INIT_TS_STRIDE_MIN; with fewer transmissions the state remains
INIT_STRIDE. -/
theorem rtp_code_dynamic_rtp_part_init_stride (mode : Nat)
    (packet_type : rohc_packet_t)
    (r : sc_rtp_context) (udp : udphdr) (rtp : rtphdr)
    (hstate : r.ts_sc.state = ts_sc_state.INIT_STRIDE)
    (hconst : is_ts_constant r.ts_sc = false)
    (hsdvl : c_bytesSdvl (get_ts_stride r.ts_sc) ≤ 4) :
    ∃ bytes r2, rtp_code_dynamic_rtp_part mode packet_type r udp rtp =
        some (bytes, r2) ∧
      r2.ts_sc.nr_init_stride_packets = r.ts_sc.nr_init_stride_packets + 1 ∧
      (r2.ts_sc.state = ts_sc_state.SEND_SCALED ↔
        r.ts_sc.nr_init_stride_packets + 1 ≥ ROHC_INIT_TS_STRIDE_MIN) ∧
      (r.ts_sc.nr_init_stride_packets + 1 < ROHC_INIT_TS_STRIDE_MIN →
        r2.ts_sc.state = ts_sc_state.INIT_STRIDE) := by
  have hd : r.ts_sc.ts_delta ≠ 0 := by simpa [is_ts_constant] using hconst
  simp only [rtp_code_dynamic_rtp_part, hstate, is_ts_constant]
  simp only [hd, Nat.not_lt.mpr hsdvl, if_neg, if_false, decide_eq_true_eq]
  by_cases hmin : r.ts_sc.nr_init_stride_packets + 1 ≥ ROHC_INIT_TS_STRIDE_MIN
  · simp [hd, hmin]
    exact ⟨_, _, ⟨rfl, rfl⟩, rfl, rfl⟩
  · simp [hd, hmin]
    exact ⟨_, _, ⟨rfl, rfl⟩, rfl, by simp, fun _ => rfl⟩

/-- RTP context used by the witness of C6: scaled-TS machine in INIT_STRIDE
with a non-constant TS and a small stride. -/
def c6_rtp_context : sc_rtp_context :=
  { udp_checksum_change_count := 3,
    old_udp := { source := 4, dest := 5, len := 0, check := 0 },
    rtp_pt_change_count := 3,
    old_rtp := { version := 2, padding := 0, ext_bit := 0, cc := 0, m := 0,
                 pt := 8, sn := 1, timestamp := 160, ssrc := 9 },
    ts_sc := { state := ts_sc_state.INIT_STRIDE, ts_stride := 160,
               ts_delta := 160, nr_init_stride_packets := 0 },
    tmp := { send_rtp_dynamic := 0, timestamp := 320, ts_send := 0,
             nr_ts_bits := 0, m_set := 0, rtp_pt_changed := 0 } }

/-- Witness for C6 at a concrete INIT_STRIDE invocation. -/
theorem rtp_code_dynamic_rtp_part_init_stride_witness :
    c6_rtp_context.ts_sc.state = ts_sc_state.INIT_STRIDE ∧
    is_ts_constant c6_rtp_context.ts_sc = false ∧
    c_bytesSdvl (get_ts_stride c6_rtp_context.ts_sc) ≤ 4 ∧
    (∃ bytes r2, rtp_code_dynamic_rtp_part 0 PACKET_UO_0 c6_rtp_context
        { source := 4, dest := 5, len := 0, check := 0 }
        { version := 2, padding := 0, ext_bit := 0, cc := 0, m := 0,
          pt := 8, sn := 2, timestamp := 320, ssrc := 9 } = some (bytes, r2) ∧
      r2.ts_sc.nr_init_stride_packets =
        c6_rtp_context.ts_sc.nr_init_stride_packets + 1 ∧
      (r2.ts_sc.state = ts_sc_state.SEND_SCALED ↔
        c6_rtp_context.ts_sc.nr_init_stride_packets + 1 ≥
          ROHC_INIT_TS_STRIDE_MIN) ∧
      (c6_rtp_context.ts_sc.nr_init_stride_packets + 1 <
          ROHC_INIT_TS_STRIDE_MIN →
        r2.ts_sc.state = ts_sc_state.INIT_STRIDE)) :=
  ⟨rfl, by decide, by decide,
   rtp_code_dynamic_rtp_part_init_stride 0 PACKET_UO_0 c6_rtp_context
     { source := 4, dest := 5, len := 0, check := 0 }
     { version := 2, padding := 0, ext_bit := 0, cc := 0, m := 0,
       pt := 8, sn := 2, timestamp := 320, ssrc := 9 }
     rfl (by decide) (by decide)⟩

/-- Helper for C9: rtp_changed_rtp_dynamic never modifies the old_udp and
old_rtp snapshots of the RTP context. -/
theorem rtp_changed_rtp_dynamic_keeps_old (r : sc_rtp_context) (udp : udphdr)
    (rtp : rtphdr) :
    (rtp_changed_rtp_dynamic r udp rtp).2.old_udp = r.old_udp ∧
    (rtp_changed_rtp_dynamic r udp rtp).2.old_rtp = r.old_rtp := by
  simp only [rtp_changed_rtp_dynamic]
  split_ifs <;> simp

/-- C9: in c_rtp_encode the stored last-observed headers old_udp and old_rtp
are overwritten with the current UDP and RTP headers only when the packet
type chosen for this packet is IR or IR-DYN and the generic encoder
succeeded; for every other chosen packet type, and on encoder failure, they
are left unchanged. -/
theorem c_rtp_encode_old_headers_update
    (c_generic_encode : sc_rtp_context → Option Nat × rohc_packet_t × sc_rtp_volatile)
    (r0 : sc_rtp_context) (udp : udphdr) (rtp : rtphdr) :
    (((c_rtp_encode c_generic_encode r0 udp rtp).2.1 = PACKET_IR ∨
      (c_rtp_encode c_generic_encode r0 udp rtp).2.1 = PACKET_IR_DYN) →
     (c_rtp_encode c_generic_encode r0 udp rtp).1 ≠ none →
     (c_rtp_encode c_generic_encode r0 udp rtp).2.2.old_udp = udp ∧
     (c_rtp_encode c_generic_encode r0 udp rtp).2.2.old_rtp = rtp) ∧
    ((¬((c_rtp_encode c_generic_encode r0 udp rtp).2.1 = PACKET_IR ∨
        (c_rtp_encode c_generic_encode r0 udp rtp).2.1 = PACKET_IR_DYN) ∨
      (c_rtp_encode c_generic_encode r0 udp rtp).1 = none) →
     (c_rtp_encode c_generic_encode r0 udp rtp).2.2.old_udp = r0.old_udp ∧
     (c_rtp_encode c_generic_encode r0 udp rtp).2.2.old_rtp = r0.old_rtp) := by
  have hold := rtp_changed_rtp_dynamic_keeps_old r0 udp rtp
  simp only [c_rtp_encode, sc_rtp_context.with_volatile]
  split
  · simp_all
  · split_ifs <;> simp_all

/-- Witness for C9 at a concrete encoder that chooses a UO-0 packet: the
snapshots are left unchanged. -/
theorem c_rtp_encode_old_headers_update_witness :
    ¬((c_rtp_encode
        (fun _ => (some 5, PACKET_UO_0,
          { udp_checksum_change_count := 4, rtp_pt_change_count := 4,
            ts_sc := { state := ts_sc_state.SEND_SCALED, ts_stride := 160,
                       ts_delta := 160, nr_init_stride_packets := 3 },
            tmp := { send_rtp_dynamic := 0, timestamp := 320, ts_send := 0,
                     nr_ts_bits := 0, m_set := 0, rtp_pt_changed := 0 } }))
        c6_rtp_context
        { source := 4, dest := 5, len := 0, check := 0 }
        { version := 2, padding := 0, ext_bit := 0, cc := 0, m := 0,
          pt := 8, sn := 2, timestamp := 320, ssrc := 9 }).2.1 = PACKET_IR ∨
      (c_rtp_encode
        (fun _ => (some 5, PACKET_UO_0,
          { udp_checksum_change_count := 4, rtp_pt_change_count := 4,
            ts_sc := { state := ts_sc_state.SEND_SCALED, ts_stride := 160,
                       ts_delta := 160, nr_init_stride_packets := 3 },
            tmp := { send_rtp_dynamic := 0, timestamp := 320, ts_send := 0,
                     nr_ts_bits := 0, m_set := 0, rtp_pt_changed := 0 } }))
        c6_rtp_context
        { source := 4, dest := 5, len := 0, check := 0 }
        { version := 2, padding := 0, ext_bit := 0, cc := 0, m := 0,
          pt := 8, sn := 2, timestamp := 320, ssrc := 9 }).2.1 = PACKET_IR_DYN) ∧
    (c_rtp_encode
        (fun _ => (some 5, PACKET_UO_0,
          { udp_checksum_change_count := 4, rtp_pt_change_count := 4,
            ts_sc := { state := ts_sc_state.SEND_SCALED, ts_stride := 160,
                       ts_delta := 160, nr_init_stride_packets := 3 },
            tmp := { send_rtp_dynamic := 0, timestamp := 320, ts_send := 0,
                     nr_ts_bits := 0, m_set := 0, rtp_pt_changed := 0 } }))
        c6_rtp_context
        { source := 4, dest := 5, len := 0, check := 0 }
        { version := 2, padding := 0, ext_bit := 0, cc := 0, m := 0,
          pt := 8, sn := 2, timestamp := 320, ssrc := 9 }).2.2.old_udp =
      c6_rtp_context.old_udp ∧
    (c_rtp_encode
        (fun _ => (some 5, PACKET_UO_0,
          { udp_checksum_change_count := 4, rtp_pt_change_count := 4,
            ts_sc := { state := ts_sc_state.SEND_SCALED, ts_stride := 160,
                       ts_delta := 160, nr_init_stride_packets := 3 },
            tmp := { send_rtp_dynamic := 0, timestamp := 320, ts_send := 0,
                     nr_ts_bits := 0, m_set := 0, rtp_pt_changed := 0 } }))
        c6_rtp_context
        { source := 4, dest := 5, len := 0, check := 0 }
        { version := 2, padding := 0, ext_bit := 0, cc := 0, m := 0,
          pt := 8, sn := 2, timestamp := 320, ssrc := 9 }).2.2.old_rtp =
      c6_rtp_context.old_rtp := by
  refine ⟨by decide, ?_⟩
  exact (c_rtp_encode_old_headers_update _ c6_rtp_context _ _).2 (Or.inl (by decide))

/-- C1: for the RFC 3095 RTP profile in SO state with a single IP header,
c_rtp_decide_SO_packet selects the packet type exactly as the selection table
of the specification prescribes, earlier rows taking priority: UO-0 for
non-IPv4-non-rnd with nr_sn at most 4, nr_ts zero and M clear; UO-1-RTP for
non-IPv4-non-rnd with nr_sn at most 4 and nr_ts at most 6; UOR-2-RTP for any
other non-IPv4-non-rnd header; UO-0, UO-1-TS, UO-1-ID, UOR-2-ID for the
IPv4-non-rnd rows of the table; UOR-2-TS otherwise. -/
theorem c_rtp_decide_SO_packet_single_ip_table (g : c_generic_context)
    (r : sc_rtp_context) (h : g.tmp.nr_of_ip_hdr = 1) :
    c_rtp_decide_SO_packet g r = rtp_so_single_ip_table g r := by
  simp only [c_rtp_decide_SO_packet, rtp_so_single_ip_table, h, if_pos]
  by_cases hv : ((g.ip_flags.version == IPV4) && !g.ip_flags.info_v4.rnd) = true
  · simp only [hv, Bool.not_true, Bool.false_and, Bool.and_self, Bool.true_and,
      Bool.false_eq_true, if_false]
  · simp only [Bool.not_eq_true] at hv
    simp only [hv, Bool.not_false, Bool.true_and, Bool.false_and,
      Bool.and_self, Bool.false_eq_true, if_false, if_true]

/-- Generic context used by the witness of C1: a single IPv4 header with a
non-random IP-ID, 4 SN bits, no IP-ID bit and 3 TS bits. -/
def c1_generic_context : c_generic_context :=
  { sn := 7, ir_dyn_count := 3,
    ip_flags := { version := 4, info_v4 := { rnd := false } },
    ip2_flags := { version := 4, info_v4 := { rnd := false } },
    tmp := { nr_of_ip_hdr := 1, send_static := 0, send_dynamic := 0,
             nr_sn_bits := 4, nr_ip_id_bits := 0, nr_ip_id_bits2 := 0,
             packet_type := PACKET_UNKNOWN } }

/-- Witness for C1 at a concrete single-IP-header context (the selected
packet is UO-1-TS, matching the table). -/
theorem c_rtp_decide_SO_packet_single_ip_table_witness :
    c1_generic_context.tmp.nr_of_ip_hdr = 1 ∧
    c_rtp_decide_SO_packet c1_generic_context c6_rtp_context =
      rtp_so_single_ip_table c1_generic_context c6_rtp_context :=
  ⟨rfl, c_rtp_decide_SO_packet_single_ip_table c1_generic_context
          c6_rtp_context rfl⟩

/-- Generic context of the counterexample for C4: a single IP header with 3
changed dynamic fields, but a changed static field as well. -/
def c4_generic_context : c_generic_context :=
  { sn := 7, ir_dyn_count := 3,
    ip_flags := { version := 4, info_v4 := { rnd := false } },
    ip2_flags := { version := 4, info_v4 := { rnd := false } },
    tmp := { nr_of_ip_hdr := 1, send_static := 1, send_dynamic := 3,
             nr_sn_bits := 4, nr_ip_id_bits := 0, nr_ip_id_bits2 := 0,
             packet_type := PACKET_UNKNOWN } }

/-- Counterexample for C4: with a single IP header and more than 2 changed
dynamic fields, c_rtp_decide_FO_packet does not return IR-DYN when a static
field changed as well; it returns UOR-2-RTP, because the send_static check of
the source precedes the changed-dynamic-fields checks. -/
theorem c_rtp_decide_FO_packet_static_beats_dynamic :
    c4_generic_context.tmp.nr_of_ip_hdr = 1 ∧
    c4_generic_context.tmp.send_dynamic > 2 ∧
    (c_rtp_decide_FO_packet c4_generic_context c6_rtp_context).1 =
      PACKET_UOR_2_RTP ∧
    (c_rtp_decide_FO_packet c4_generic_context c6_rtp_context).1 ≠
      PACKET_IR_DYN :=
  ⟨rfl, by decide, by decide, by decide⟩

/-- C4 (amended): for the RFC 3095 RTP profile in FO state, provided no
static field changed, c_rtp_decide_FO_packet returns IR-DYN whenever more
than 2 dynamic fields changed with a single IP header or more than 4 with two
IP headers; it also returns IR-DYN when more than 14 SN bits are required
(once MAX_FO_COUNT IR-DYN packets were already sent), and it always selects
one of IR-DYN, UOR-2-RTP, UOR-2-ID, UOR-2-TS. -/
theorem c_rtp_decide_FO_packet_dynamic_fallback (g : c_generic_context)
    (r : sc_rtp_context) (hstatic : g.tmp.send_static = 0) :
    (((g.tmp.nr_of_ip_hdr = 1 ∧ g.tmp.send_dynamic > 2) ∨
      (g.tmp.nr_of_ip_hdr > 1 ∧ g.tmp.send_dynamic > 4)) →
      (c_rtp_decide_FO_packet g r).1 = PACKET_IR_DYN) ∧
    (g.ir_dyn_count ≥ MAX_FO_COUNT → g.tmp.nr_sn_bits > 14 →
      (c_rtp_decide_FO_packet g r).1 = PACKET_IR_DYN) ∧
    ((c_rtp_decide_FO_packet g r).1 = PACKET_IR_DYN ∨
     (c_rtp_decide_FO_packet g r).1 = PACKET_UOR_2_RTP ∨
     (c_rtp_decide_FO_packet g r).1 = PACKET_UOR_2_ID ∨
     (c_rtp_decide_FO_packet g r).1 = PACKET_UOR_2_TS) := by
  have hns : ¬ (g.tmp.send_static ≠ 0) := by omega
  refine ⟨?_, ?_, ?_⟩
  · intro hd
    unfold c_rtp_decide_FO_packet
    rw [if_neg hns]
    by_cases hcnt : g.ir_dyn_count < MAX_FO_COUNT
    · rw [if_pos hcnt]
    · rw [if_neg hcnt]
      rcases hd with h3 | h4
      · rw [if_pos h3]
      · have h3n : ¬ (g.tmp.nr_of_ip_hdr = 1 ∧ g.tmp.send_dynamic > 2) := by
          omega
        rw [if_neg h3n, if_pos h4]
  · intro hge hsn
    have hcnt : ¬ g.ir_dyn_count < MAX_FO_COUNT := by omega
    have hsn2 : ¬ g.tmp.nr_sn_bits ≤ 14 := by omega
    unfold c_rtp_decide_FO_packet
    rw [if_neg hns, if_neg hcnt]
    by_cases h3 : g.tmp.nr_of_ip_hdr = 1 ∧ g.tmp.send_dynamic > 2
    · rw [if_pos h3]
    · rw [if_neg h3]
      by_cases h4 : g.tmp.nr_of_ip_hdr > 1 ∧ g.tmp.send_dynamic > 4
      · rw [if_pos h4]
      · rw [if_neg h4, if_neg hsn2]
  · rcases hE : c_rtp_decide_FO_packet g r with ⟨p, n⟩
    unfold c_rtp_decide_FO_packet at hE
    dsimp only at hE
    split_ifs at hE
    all_goals (injection hE with hp hn; subst hp; simp)

/-- Witness for C4 (amended) at a concrete context with no static change and
3 changed dynamic fields over a single IP header. -/
theorem c_rtp_decide_FO_packet_dynamic_fallback_witness :
    ({ c4_generic_context with
       tmp := { c4_generic_context.tmp with send_static := 0 } } :
        c_generic_context).tmp.send_static = 0 ∧
    (c_rtp_decide_FO_packet
      { c4_generic_context with
        tmp := { c4_generic_context.tmp with send_static := 0 } }
      c6_rtp_context).1 = PACKET_IR_DYN :=
  ⟨rfl,
   (c_rtp_decide_FO_packet_dynamic_fallback
      { c4_generic_context with
        tmp := { c4_generic_context.tmp with send_static := 0 } }
      c6_rtp_context rfl).1 (Or.inl (by decide))⟩

/- ================== C5: control CRC over co_repair ================== -/

/-- Shape of the extracted bits of one IP header after the dynamic chain of a
co_repair packet was parsed: the IP-ID behavior bits are present for IPv4
headers and the 16-bit IP-ID is present exactly when the behavior is not
zero. -/
def co_repair_ip_bits_shape (ib : rohc_rfc5225_ip_bits) : Prop :=
  (ib.version = IPV4 →
    ib.id_behavior_nr = 2 ∧
    ((ib.id_behavior ≠ ROHC_IP_ID_BEHAVIOR_ZERO ∧ ib.id_bits_nr = 16) ∨
     (ib.id_behavior = ROHC_IP_ID_BEHAVIOR_ZERO ∧ ib.id_bits_nr = 0))) ∧
  (ib.version ≠ IPV4 → ib.id_bits_nr = 0)

/-- Shape of the extracted bits of a parsed co_repair packet: the 3-bit
control CRC is present, the full 16-bit MSN and the 2 reorder ratio bits were
parsed from the UDP dynamic part, and every IP header satisfies the per-header
shape. -/
def co_repair_bits_shape (bits : rohc_rfc5225_bits) : Prop :=
  bits.ctrl_crc.typ = rohc_crc_type_t.ROHC_CRC_TYPE_3 ∧
  bits.msn_bits_nr = 16 ∧
  bits.reorder_r_nr = 2 ∧
  ∀ ib ∈ bits.ip, co_repair_ip_bits_shape ib

/-- Helper for C5: the dynamic IP parser establishes the per-header shape on
every header it accepts, provided the extracted IP-ID bits were reset. -/
theorem parse_dyn_ip_shape (data : List Nat) (ib ib2 : rohc_rfc5225_ip_bits)
    (k : Nat) (h0 : ib.id_bits_nr = 0)
    (h : decomp_rfc5225_ip_udp_rtp_parse_dyn_ip data ib = some (ib2, k)) :
    co_repair_ip_bits_shape ib2 := by
  simp only [decomp_rfc5225_ip_udp_rtp_parse_dyn_ip] at h
  split_ifs at h <;>
    simp_all [co_repair_ip_bits_shape, ROHC_IP_ID_BEHAVIOR_ZERO,
      ROHC_IP_ID_BEHAVIOR_RAND, IPV4] <;>
    (obtain ⟨rfl, rfl⟩ := h) <;> simp_all

/-- Helper for C5: the dynamic chain loop establishes the per-header shape on
every header of its output. -/
theorem parse_dyn_chain_ips_shape :
    ∀ (ips : List rohc_rfc5225_ip_bits) (data : List Nat)
      (out : List rohc_rfc5225_ip_bits) (k : Nat),
    (∀ ib ∈ ips, ib.id_bits_nr = 0) →
    parse_dyn_chain_ips ips data = some (out, k) →
    ∀ ib2 ∈ out, co_repair_ip_bits_shape ib2 := by
  intro ips
  induction ips with
  | nil =>
    intro data out k h0 h ib2 hib2
    simp only [parse_dyn_chain_ips, Option.some.injEq, Prod.mk.injEq] at h
    obtain ⟨rfl, rfl⟩ := h
    simp at hib2
  | cons ib rest ih =>
    intro data out k h0 h ib2 hib2
    simp only [parse_dyn_chain_ips] at h
    split at h
    · exact absurd h (by simp)
    · rename_i ibp k1 hp
      split at h
      · exact absurd h (by simp)
      · rename_i outr k2 hr
        simp only [Option.some.injEq, Prod.mk.injEq] at h
        obtain ⟨rfl, rfl⟩ := h
        rcases List.mem_cons.mp hib2 with rfl | hmem
        · exact parse_dyn_ip_shape data ib ib2 k1
            (h0 ib (List.mem_cons_self ib rest)) hp
        · exact ih _ outr k2
            (fun x hx => h0 x (List.mem_cons_of_mem ib hx)) hr ib2 hmem

/-- Helper for C5: the reset of the extracted bits leaves no IP-ID bits in
any IP header entry. -/
theorem reset_extr_bits_id_bits_zero
    (ctxt : rohc_decomp_rfc5225_ip_udp_rtp_ctxt) (nrp : Nat)
    (prev : rohc_rfc5225_bits) :
    ∀ ib ∈ (decomp_rfc5225_ip_udp_rtp_reset_extr_bits ctxt nrp prev).ip,
      ib.id_bits_nr = 0 := by
  intro ib hib
  simp only [decomp_rfc5225_ip_udp_rtp_reset_extr_bits] at hib
  split_ifs at hib
  · obtain ⟨c, _, rfl⟩ := List.mem_map.mp hib
    rfl
  · simp at hib

/-- Helper for C5: a successfully parsed dynamic chain yields bits of the
co_repair shape when the control CRC was recorded beforehand. -/
theorem parse_dyn_chain_shape (data : List Nat)
    (bits1 bits2 : rohc_rfc5225_bits) (k : Nat)
    (h0 : ∀ ib ∈ bits1.ip, ib.id_bits_nr = 0)
    (hcrc : bits1.ctrl_crc.typ = rohc_crc_type_t.ROHC_CRC_TYPE_3)
    (h : decomp_rfc5225_ip_udp_rtp_parse_dyn_chain data bits1 = some (bits2, k)) :
    co_repair_bits_shape bits2 := by
  simp only [decomp_rfc5225_ip_udp_rtp_parse_dyn_chain] at h
  split at h
  · exact absurd h (by simp)
  · rename_i ips2 k1 hl
    simp only [decomp_rfc5225_ip_udp_rtp_parse_dyn_udp] at h
    split_ifs at h
    dsimp only at h
    simp only [Option.some.injEq, Prod.mk.injEq] at h
    obtain ⟨rfl, rfl⟩ := h
    refine ⟨by simpa using hcrc, rfl, rfl, ?_⟩
    intro ib2 hib2
    exact parse_dyn_chain_ips_shape bits1.ip data ips2 k1 h0 hl ib2
      (by simpa using hib2)

/-- Helper for C5: every IP-header totality step of the decode stage succeeds
under the per-header co_repair shape. -/
theorem decode_ip_hdr_total (a b m : Nat) (ib : rohc_rfc5225_ip_bits)
    (c : ip_context_t) (h : co_repair_ip_bits_shape ib) :
    ∃ d, decomp_rfc5225_ip_udp_rtp_decode_bits_ip_hdr a b ib c m = some d := by
  simp only [decomp_rfc5225_ip_udp_rtp_decode_bits_ip_hdr]
  by_cases hv : ib.version = IPV4
  · obtain ⟨hnr, hcase⟩ := h.1 hv
    rcases hcase with ⟨hz, h16⟩ | ⟨hz, h0⟩
    · simp [hv, h16]
    · simp [hv, h0, hz, hnr, ROHC_IP_ID_BEHAVIOR_ZERO]
  · have h0 := h.2 hv
    simp [hv, h0]

/-- Helper for C5: the decode loop over the IP headers succeeds under the
per-header co_repair shape. -/
theorem decode_loop_total (a b m : Nat) :
    ∀ (ips : List rohc_rfc5225_ip_bits) (ctxts : List ip_context_t),
    (∀ ib ∈ ips, co_repair_ip_bits_shape ib) →
    ∃ ds, decode_bits_ip_hdrs_loop a b m ips ctxts = some ds := by
  intro ips
  induction ips with
  | nil => intro ctxts _; exact ⟨[], rfl⟩
  | cons ib rest ih =>
    intro ctxts hall
    obtain ⟨d, hd⟩ := decode_ip_hdr_total a b m ib (ctxts.headD default_ip_context)
      (hall ib (List.mem_cons_self ib rest))
    obtain ⟨ds, hds⟩ := ih ctxts.tail (fun x hx => hall x (List.mem_cons_of_mem ib hx))
    refine ⟨d :: ds, ?_⟩
    simp only [decode_bits_ip_hdrs_loop]
    rw [hd, hds]

/-- C5: when a ROHCv2 packet carries a 3-bit control CRC (a parsed co_repair
packet, whose extracted bits satisfy the co_repair shape), the decompressor
computes the CRC-3 over the decoded reorder ratio, the decoded MSN (both the
extracted values, since co_repair transmits them in full) and the ordered
list of the IP-ID behaviors of those headers whose recorded context version
is IPv4 (IPv6 headers excluded), and the decode step fails exactly when the
computed CRC-3 differs from the 3 received CRC bits.  The first conjunct
states that every successfully parsed co_repair packet produces bits of that
shape (starting from any reset bits, whose IP entries carry no IP-ID bits,
per the third conjunct). -/
theorem decomp_rfc5225_ip_udp_rtp_ctrl_crc3_check :
    (∀ (pkt : List Nat) (lcl : Nat) (bits0 : rohc_rfc5225_bits)
       (hc : rohc_decomp_crc) (bits : rohc_rfc5225_bits) (len : Nat),
       (∀ ib ∈ bits0.ip, ib.id_bits_nr = 0) →
       decomp_rfc5225_ip_udp_rtp_parse_co_repair pkt lcl bits0 =
         some (hc, bits, len) →
       co_repair_bits_shape bits) ∧
    (∀ (ctxt : rohc_decomp_rfc5225_ip_udp_rtp_ctxt) (nrp : Nat)
       (prev : rohc_rfc5225_bits),
       ∀ ib ∈ (decomp_rfc5225_ip_udp_rtp_reset_extr_bits ctxt nrp prev).ip,
         ib.id_bits_nr = 0) ∧
    (∀ (ctxt : rohc_decomp_rfc5225_ip_udp_rtp_ctxt) (bits : rohc_rfc5225_bits),
       co_repair_bits_shape bits →
       (decomp_rfc5225_ip_udp_rtp_decode_bits ctxt bits = none ↔
         compute_crc_ctrl_fields bits.reorder_r bits.msn_bits
           (ctrl_crc_ip_id_behaviors bits.ip ctxt.ip_contexts) ≠
           bits.ctrl_crc.bits)) := by
  refine ⟨?_, reset_extr_bits_id_bits_zero, ?_⟩
  · intro pkt lcl bits0 hc bits len h0 h
    simp only [decomp_rfc5225_ip_udp_rtp_parse_co_repair] at h
    split_ifs at h
    split at h
    · exact absurd h (by simp)
    · rename_i bits3 dcl hdc
      simp only [Option.some.injEq, Prod.mk.injEq] at h
      obtain ⟨rfl, rfl, rfl⟩ := h
      exact parse_dyn_chain_shape _ _ _ _ (by simpa using h0) rfl hdc
  · intro ctxt bits h
    obtain ⟨hcrc, hmsn, hreo, hips⟩ := h
    obtain ⟨ds, hds⟩ := decode_loop_total ctxt.msn_lsb_ref
      ctxt.ip_id_offset_lsb_ref bits.msn_bits bits.ip ctxt.ip_contexts hips
    by_cases heq : compute_crc_ctrl_fields bits.reorder_r bits.msn_bits
        (ctrl_crc_ip_id_behaviors bits.ip ctxt.ip_contexts) = bits.ctrl_crc.bits
    · simp [decomp_rfc5225_ip_udp_rtp_decode_bits, hmsn, hreo, hcrc, hds, heq]
    · simp [decomp_rfc5225_ip_udp_rtp_decode_bits, hmsn, hreo, hcrc, hds, heq]

/-- Decidability of the per-header co_repair shape. -/
instance (ib : rohc_rfc5225_ip_bits) : Decidable (co_repair_ip_bits_shape ib) := by
  unfold co_repair_ip_bits_shape
  infer_instance

/-- Decidability of the co_repair shape of extracted bits. -/
instance (bits : rohc_rfc5225_bits) : Decidable (co_repair_bits_shape bits) := by
  unfold co_repair_bits_shape
  infer_instance

/-- Decompression context of the C5 witness: one IPv4 header recorded. -/
def c5_decomp_ctxt : rohc_decomp_rfc5225_ip_udp_rtp_ctxt :=
  { msn_lsb_ref := 10, ip_id_offset_lsb_ref := 0, reorder_r := 0,
    ip_contexts :=
      [{ default_ip_context with version := 4, vx_version := 4, next_header := 17 }],
    udp_sport := 1000, udp_dport := 2000, udp_checksum_used := false,
    rtp_ssrc := 0 }

/-- Extracted bits of the C5 witness, as parsed from a 13-byte co_repair
packet over the context above (sequential IP-ID behavior, MSN 11, control
CRC bits 6). -/
def c5_extr_bits : rohc_rfc5225_bits :=
  { ip := [{ version := 4, tos_tc_bits := 0, tos_tc_bits_nr := 8,
             id_behavior := 0, id_behavior_nr := 2, id_bits := 16,
             id_bits_nr := 16, id_p := 0, df := 0, df_nr := 1, ttl_hl := 64,
             ttl_hl_nr := 8, proto := 17, proto_nr := 8, flowid := 0,
             flowid_nr := 0, saddr := [], saddr_nr := 0, daddr := [],
             daddr_nr := 0 }],
    msn_bits := 11, msn_bits_nr := 16, reorder_r := 0, reorder_r_nr := 2,
    outer_ip_flag := 0, outer_ip_flag_nr := 0,
    ctrl_crc := { typ := rohc_crc_type_t.ROHC_CRC_TYPE_3, bits := 6,
                  bits_nr := 3 },
    udp_sport := 0, udp_sport_nr := 0, udp_dport := 0, udp_dport_nr := 0,
    udp_checksum := 0, udp_checksum_nr := 16, rtp_ssrc := 0, rtp_ssrc_nr := 0 }

/-- Witness for C5 at the concrete context and extracted bits above. -/
theorem decomp_rfc5225_ip_udp_rtp_ctrl_crc3_check_witness :
    co_repair_bits_shape c5_extr_bits ∧
    (decomp_rfc5225_ip_udp_rtp_decode_bits c5_decomp_ctxt c5_extr_bits = none ↔
      compute_crc_ctrl_fields c5_extr_bits.reorder_r c5_extr_bits.msn_bits
        (ctrl_crc_ip_id_behaviors c5_extr_bits.ip c5_decomp_ctxt.ip_contexts) ≠
        c5_extr_bits.ctrl_crc.bits) :=
  ⟨by decide,
   decomp_rfc5225_ip_udp_rtp_ctrl_crc3_check.2.2 c5_decomp_ctxt c5_extr_bits
     (by decide)⟩

/- ================== C3: malformed packets and context commit ============ -/

/-- Helper for C3: the static IP parser fails on inputs shorter than the
10-byte IPv4 static part (every layout needs at least 10 bytes). -/
theorem H_static_ip_short (data : List Nat) (ib : rohc_rfc5225_ip_bits)
    (h : data.length < 10) :
    decomp_rfc5225_ip_udp_rtp_parse_static_ip data ib = none := by
  simp only [decomp_rfc5225_ip_udp_rtp_parse_static_ip]
  split_ifs <;> first | rfl | omega

/-- Helper for C3: the static IP parser fails on an IPv6 header without flow
label shorter than the 34-byte ipv6_static_nofl part. -/
theorem H_static_ip_v6_nofl_short (data : List Nat) (ib : rohc_rfc5225_ip_bits)
    (h7 : GET_BIT_7 (data.getD 0 0) = 1) (h4 : GET_BIT_4 (data.getD 0 0) = 0)
    (h : data.length < 34) :
    decomp_rfc5225_ip_udp_rtp_parse_static_ip data ib = none := by
  simp only [decomp_rfc5225_ip_udp_rtp_parse_static_ip]
  split_ifs <;> first | rfl | omega

/-- Helper for C3: the static IP parser fails on an IPv6 header with flow
label shorter than the 36-byte ipv6_static_fl part. -/
theorem H_static_ip_v6_fl_short (data : List Nat) (ib : rohc_rfc5225_ip_bits)
    (h7 : GET_BIT_7 (data.getD 0 0) = 1) (h4 : GET_BIT_4 (data.getD 0 0) = 1)
    (h : data.length < 36) :
    decomp_rfc5225_ip_udp_rtp_parse_static_ip data ib = none := by
  simp only [decomp_rfc5225_ip_udp_rtp_parse_static_ip]
  split_ifs <;> first | rfl | omega

/-- Helper for C3: the static IP parser rejects an IPv4 header whose 6
reserved bits are not all zero. -/
theorem H_static_ip_v4_reserved (data : List Nat) (ib : rohc_rfc5225_ip_bits)
    (h7 : GET_BIT_7 (data.getD 0 0) = 0) (hr : (data.getD 0 0) % 64 ≠ 0) :
    decomp_rfc5225_ip_udp_rtp_parse_static_ip data ib = none := by
  have hne : data.length ≥ 1 := by
    by_contra hlen
    have : data = [] := by
      cases data with
      | nil => rfl
      | cons a l => simp at hlen
    subst this
    simp [List.getD] at hr
  simp only [decomp_rfc5225_ip_udp_rtp_parse_static_ip]
  split_ifs <;> first | rfl | omega

/-- Helper for C3: the static IP parser rejects an IPv6-without-flow-label
header whose bit-5 reserved field is not zero. -/
theorem H_static_ip_v6_nofl_res1 (data : List Nat) (ib : rohc_rfc5225_ip_bits)
    (h7 : GET_BIT_7 (data.getD 0 0) = 1) (h4 : GET_BIT_4 (data.getD 0 0) = 0)
    (hr : (data.getD 0 0) / 32 % 2 ≠ 0) :
    decomp_rfc5225_ip_udp_rtp_parse_static_ip data ib = none := by
  simp only [decomp_rfc5225_ip_udp_rtp_parse_static_ip]
  split_ifs <;> first | rfl | omega

/-- Helper for C3: the static IP parser rejects an IPv6-without-flow-label
header whose low 4 reserved bits are not all zero. -/
theorem H_static_ip_v6_nofl_res2 (data : List Nat) (ib : rohc_rfc5225_ip_bits)
    (h7 : GET_BIT_7 (data.getD 0 0) = 1) (h4 : GET_BIT_4 (data.getD 0 0) = 0)
    (hr : (data.getD 0 0) % 16 ≠ 0) :
    decomp_rfc5225_ip_udp_rtp_parse_static_ip data ib = none := by
  simp only [decomp_rfc5225_ip_udp_rtp_parse_static_ip]
  split_ifs <;> first | rfl | omega

/-- Helper for C3: the static IP parser rejects an IPv6-with-flow-label
header whose bit-5 reserved field is not zero. -/
theorem H_static_ip_v6_fl_res (data : List Nat) (ib : rohc_rfc5225_ip_bits)
    (h7 : GET_BIT_7 (data.getD 0 0) = 1) (h4 : GET_BIT_4 (data.getD 0 0) = 1)
    (hr : (data.getD 0 0) / 32 % 2 ≠ 0) :
    decomp_rfc5225_ip_udp_rtp_parse_static_ip data ib = none := by
  simp only [decomp_rfc5225_ip_udp_rtp_parse_static_ip]
  split_ifs <;> first | rfl | omega

/-- Helper for C3: the dynamic IP parser fails on an IPv4 header with fewer
than the 3 fixed bytes of the ipv4_regular_dynamic part. -/
theorem H_dyn_ip_v4_short (data : List Nat) (ib : rohc_rfc5225_ip_bits)
    (hv : ib.version = IPV4) (h : data.length < 3) :
    decomp_rfc5225_ip_udp_rtp_parse_dyn_ip data ib = none := by
  simp only [decomp_rfc5225_ip_udp_rtp_parse_dyn_ip, hv]
  split_ifs <;> first | rfl | omega

/-- Helper for C3: the dynamic IP parser rejects an IPv4 dynamic part whose 5
reserved bits are not all zero. -/
theorem H_dyn_ip_v4_reserved (data : List Nat) (ib : rohc_rfc5225_ip_bits)
    (hv : ib.version = IPV4) (hr : (data.getD 0 0) / 8 ≠ 0) :
    decomp_rfc5225_ip_udp_rtp_parse_dyn_ip data ib = none := by
  simp only [decomp_rfc5225_ip_udp_rtp_parse_dyn_ip, hv]
  split_ifs <;> first | rfl | omega

/-- Helper for C3: the dynamic IP parser fails on an IPv6 header with fewer
than the 2 bytes of the IPv6 dynamic part. -/
theorem H_dyn_ip_v6_short (data : List Nat) (ib : rohc_rfc5225_ip_bits)
    (hv : ib.version ≠ IPV4) (h : data.length < 2) :
    decomp_rfc5225_ip_udp_rtp_parse_dyn_ip data ib = none := by
  simp only [decomp_rfc5225_ip_udp_rtp_parse_dyn_ip, hv]
  split_ifs <;> first | rfl | omega

/-- Helper for C3: the static UDP parser fails on fewer than 4 bytes. -/
theorem H_static_udp_short (data : List Nat) (bits : rohc_rfc5225_bits)
    (h : data.length < 4) :
    decomp_rfc5225_ip_udp_rtp_parse_static_udp data bits = none := by
  simp only [decomp_rfc5225_ip_udp_rtp_parse_static_udp]
  split_ifs <;> first | rfl | omega

/-- Helper for C3: the dynamic UDP parser fails on fewer than 5 bytes. -/
theorem H_dyn_udp_short (data : List Nat) (bits : rohc_rfc5225_bits)
    (h : data.length < 5) :
    decomp_rfc5225_ip_udp_rtp_parse_dyn_udp data bits = none := by
  simp only [decomp_rfc5225_ip_udp_rtp_parse_dyn_udp]
  split_ifs <;> first | rfl | omega

/-- Helper for C3: the IR parser fails on a packet shorter than the packet
type octet, the large CID bytes, the profile octet and the CRC octet. -/
theorem H_ir_short (pkt : List Nat) (lcl : Nat) (bits : rohc_rfc5225_bits)
    (h : pkt.length < 1 + lcl + 2) :
    decomp_rfc5225_ip_udp_rtp_parse_ir pkt lcl bits = none := by
  simp only [decomp_rfc5225_ip_udp_rtp_parse_ir]
  split_ifs with h1 h2
  · rfl
  · rfl
  · exfalso
    simp [List.length_drop] at h2
    omega

/-- Helper for C3: the co_repair parser fails on a packet shorter than the
packet type octet, the large CID bytes and the two CRC octets. -/
theorem H_co_repair_short (pkt : List Nat) (lcl : Nat)
    (bits : rohc_rfc5225_bits) (h : pkt.length < 1 + lcl + 2) :
    decomp_rfc5225_ip_udp_rtp_parse_co_repair pkt lcl bits = none := by
  simp only [decomp_rfc5225_ip_udp_rtp_parse_co_repair]
  split_ifs <;> first | rfl | omega

/-- Helper for C3: the co_repair parser rejects a packet whose r1 reserved
bit (bit 7 of the first octet after the CID bytes) is not zero. -/
theorem H_co_repair_r1 (pkt : List Nat) (lcl : Nat)
    (bits : rohc_rfc5225_bits)
    (hr : GET_BIT_7 ((pkt.drop (1 + lcl)).getD 0 0) ≠ 0) :
    decomp_rfc5225_ip_udp_rtp_parse_co_repair pkt lcl bits = none := by
  simp only [decomp_rfc5225_ip_udp_rtp_parse_co_repair]
  split_ifs <;> first | rfl | simp_all

/-- Helper for C3: the co_repair parser rejects a packet whose r2 reserved
field (the 5 upper bits of the second octet after the CID bytes) is not
zero. -/
theorem H_co_repair_r2 (pkt : List Nat) (lcl : Nat)
    (bits : rohc_rfc5225_bits)
    (hr : (pkt.drop (1 + lcl)).getD 1 0 / 8 ≠ 0) :
    decomp_rfc5225_ip_udp_rtp_parse_co_repair pkt lcl bits = none := by
  simp only [decomp_rfc5225_ip_udp_rtp_parse_co_repair]
  split_ifs <;> first | rfl | simp_all

/-- Helper for C3: the static chain fails as soon as its first IP header
fails to parse. -/
theorem H_static_chain_head_fail (d : List Nat) (bits : rohc_rfc5225_bits)
    (h : decomp_rfc5225_ip_udp_rtp_parse_static_ip d
           (bits.ip.headD empty_ip_bits) = none) :
    decomp_rfc5225_ip_udp_rtp_parse_static_chain d bits = none := by
  simp only [decomp_rfc5225_ip_udp_rtp_parse_static_chain, ROHC_MAX_IP_HDRS,
    parse_static_chain_ips]
  rw [h]

/-- Helper for C3: an IR packet whose first static-chain header is IPv4 with
non-zero reserved bits is rejected by the IR parser. -/
theorem H_ir_static_v4_reserved (pkt : List Nat) (lcl : Nat)
    (bits : rohc_rfc5225_bits)
    (h7 : GET_BIT_7 ((pkt.drop (lcl + 3)).getD 0 0) = 0)
    (hr : ((pkt.drop (lcl + 3)).getD 0 0) % 64 ≠ 0) :
    decomp_rfc5225_ip_udp_rtp_parse_ir pkt lcl bits = none := by
  simp only [decomp_rfc5225_ip_udp_rtp_parse_ir]
  split_ifs with h1 h2
  · rfl
  · rfl
  · have e : (pkt.drop (1 + lcl + 1)).drop 1 = pkt.drop (lcl + 3) := by
      rw [List.drop_drop]
      congr 1
      omega
    rw [e, H_static_chain_head_fail _ _
      (H_static_ip_v4_reserved _ _ h7 hr)]

/-- Helper for C3: a co_repair packet whose first dynamic-chain header is
IPv4 with non-zero reserved bits is rejected by the co_repair parser. -/
theorem H_co_repair_dyn_v4_reserved (pkt : List Nat) (lcl : Nat)
    (bits : rohc_rfc5225_bits)
    (hne : bits.ip ≠ [])
    (hv : (bits.ip.headD empty_ip_bits).version = IPV4)
    (hr : ((pkt.drop (lcl + 3)).getD 0 0) / 8 ≠ 0) :
    decomp_rfc5225_ip_udp_rtp_parse_co_repair pkt lcl bits = none := by
  simp only [decomp_rfc5225_ip_udp_rtp_parse_co_repair]
  split_ifs
  · rfl
  · rfl
  · rfl
  · have e : (pkt.drop (1 + lcl)).drop 2 = pkt.drop (lcl + 3) := by
      rw [List.drop_drop]
      congr 1
      omega
    rw [e]
    rcases hip : bits.ip with _ | ⟨ib, rest⟩
    · exact absurd hip hne
    · have hv2 : ib.version = IPV4 := by
        rw [hip] at hv
        simpa using hv
      have hfail := H_dyn_ip_v4_reserved (pkt.drop (lcl + 3)) ib hv2 hr
      simp only [decomp_rfc5225_ip_udp_rtp_parse_dyn_chain, hip,
        parse_dyn_chain_ips]
      rw [hfail]

/-- Helper for C3: the top-level decompression gates the context commit on
full success.  A non-OK status leaves the context unchanged; a parse failure
yields the malformed status with the unchanged context; an OK status implies
parse, decode and CRC all succeeded and the returned context is exactly the
update computed from the decoded values. -/
theorem H_gating (crc_ok : rohc_rfc5225_decoded → rohc_decomp_crc → Bool)
    (ctxt : rohc_decomp_rfc5225_ip_udp_rtp_ctxt) (nrp : Nat)
    (prev : rohc_rfc5225_bits) (pkt : List Nat) (lcl : Nat) :
    ((rohc_decomp_decompress crc_ok ctxt nrp prev pkt lcl).1 ≠
        rohc_status_t.ROHC_STATUS_OK →
      (rohc_decomp_decompress crc_ok ctxt nrp prev pkt lcl).2 = ctxt) ∧
    (decomp_rfc5225_ip_udp_rtp_parse_pkt
        (decomp_rfc5225_ip_udp_rtp_detect_pkt_type pkt) pkt lcl
        (decomp_rfc5225_ip_udp_rtp_reset_extr_bits ctxt nrp prev) = none →
      rohc_decomp_decompress crc_ok ctxt nrp prev pkt lcl =
        (rohc_status_t.ROHC_STATUS_MALFORMED, ctxt)) ∧
    ((rohc_decomp_decompress crc_ok ctxt nrp prev pkt lcl).1 =
        rohc_status_t.ROHC_STATUS_OK →
      ∃ parsed decoded,
        decomp_rfc5225_ip_udp_rtp_parse_pkt
          (decomp_rfc5225_ip_udp_rtp_detect_pkt_type pkt) pkt lcl
          (decomp_rfc5225_ip_udp_rtp_reset_extr_bits ctxt nrp prev) =
          some parsed ∧
        decomp_rfc5225_ip_udp_rtp_decode_bits ctxt parsed.2.1 = some decoded ∧
        crc_ok decoded parsed.1 = true ∧
        (rohc_decomp_decompress crc_ok ctxt nrp prev pkt lcl).2 =
          decomp_rfc5225_ip_udp_rtp_update_ctxt ctxt decoded) := by
  simp only [rohc_decomp_decompress]
  split
  · exact ⟨fun _ => rfl, fun _ => rfl, by simp⟩
  · rename_i parsed heq
    split
    · exact ⟨fun _ => rfl, fun hn => absurd (hn ▸ heq) (by simp), by simp⟩
    · rename_i decoded hdec
      split_ifs with hcrc
      · refine ⟨fun hne => absurd rfl hne,
          fun hn => absurd (hn ▸ heq) (by simp), ?_⟩
        intro _
        exact ⟨parsed, decoded, heq, hdec, hcrc, rfl⟩
      · exact ⟨fun _ => rfl, fun hn => absurd (hn ▸ heq) (by simp), by simp⟩

/-- C3: every ROHCv2 IR or co_repair packet that is shorter than required or
carries a non-zero reserved field (static-chain reserved bits of the IPv4 and
both IPv6 layouts, dynamic-chain IPv4 reserved bits, or the co_repair r1/r2
fields) makes the corresponding parser fail with none, and the top-level
decompression leaves the persistent context (MSN reference, IP contexts, UDP
fields) unchanged on every non-OK status — in particular the malformed status
produced by a parse failure — committing the updated context only after
parse, decode and CRC all succeed. -/
theorem decomp_rfc5225_ip_udp_rtp_malformed_no_commit :
    (∀ (crc_ok : rohc_rfc5225_decoded → rohc_decomp_crc → Bool)
       (ctxt : rohc_decomp_rfc5225_ip_udp_rtp_ctxt) (nrp : Nat)
       (prev : rohc_rfc5225_bits) (pkt : List Nat) (lcl : Nat),
       ((rohc_decomp_decompress crc_ok ctxt nrp prev pkt lcl).1 ≠
           rohc_status_t.ROHC_STATUS_OK →
         (rohc_decomp_decompress crc_ok ctxt nrp prev pkt lcl).2 = ctxt) ∧
       (decomp_rfc5225_ip_udp_rtp_parse_pkt
           (decomp_rfc5225_ip_udp_rtp_detect_pkt_type pkt) pkt lcl
           (decomp_rfc5225_ip_udp_rtp_reset_extr_bits ctxt nrp prev) = none →
         rohc_decomp_decompress crc_ok ctxt nrp prev pkt lcl =
           (rohc_status_t.ROHC_STATUS_MALFORMED, ctxt)) ∧
       ((rohc_decomp_decompress crc_ok ctxt nrp prev pkt lcl).1 =
           rohc_status_t.ROHC_STATUS_OK →
         ∃ parsed decoded,
           decomp_rfc5225_ip_udp_rtp_parse_pkt
             (decomp_rfc5225_ip_udp_rtp_detect_pkt_type pkt) pkt lcl
             (decomp_rfc5225_ip_udp_rtp_reset_extr_bits ctxt nrp prev) =
             some parsed ∧
           decomp_rfc5225_ip_udp_rtp_decode_bits ctxt parsed.2.1 =
             some decoded ∧
           crc_ok decoded parsed.1 = true ∧
           (rohc_decomp_decompress crc_ok ctxt nrp prev pkt lcl).2 =
             decomp_rfc5225_ip_udp_rtp_update_ctxt ctxt decoded)) ∧
    (∀ (pkt : List Nat) (lcl : Nat) (bits : rohc_rfc5225_bits),
       pkt.length < 1 + lcl + 2 →
       decomp_rfc5225_ip_udp_rtp_parse_ir pkt lcl bits = none ∧
       decomp_rfc5225_ip_udp_rtp_parse_co_repair pkt lcl bits = none) ∧
    (∀ (data : List Nat) (ib : rohc_rfc5225_ip_bits),
       (data.length < 10 →
         decomp_rfc5225_ip_udp_rtp_parse_static_ip data ib = none) ∧
       (GET_BIT_7 (data.getD 0 0) = 1 → GET_BIT_4 (data.getD 0 0) = 0 →
         data.length < 34 →
         decomp_rfc5225_ip_udp_rtp_parse_static_ip data ib = none) ∧
       (GET_BIT_7 (data.getD 0 0) = 1 → GET_BIT_4 (data.getD 0 0) = 1 →
         data.length < 36 →
         decomp_rfc5225_ip_udp_rtp_parse_static_ip data ib = none) ∧
       (GET_BIT_7 (data.getD 0 0) = 0 → data.getD 0 0 % 64 ≠ 0 →
         decomp_rfc5225_ip_udp_rtp_parse_static_ip data ib = none) ∧
       (GET_BIT_7 (data.getD 0 0) = 1 → GET_BIT_4 (data.getD 0 0) = 0 →
         (data.getD 0 0 / 32 % 2 ≠ 0 ∨ data.getD 0 0 % 16 ≠ 0) →
         decomp_rfc5225_ip_udp_rtp_parse_static_ip data ib = none) ∧
       (GET_BIT_7 (data.getD 0 0) = 1 → GET_BIT_4 (data.getD 0 0) = 1 →
         data.getD 0 0 / 32 % 2 ≠ 0 →
         decomp_rfc5225_ip_udp_rtp_parse_static_ip data ib = none)) ∧
    (∀ (data : List Nat) (ib : rohc_rfc5225_ip_bits),
       (ib.version = IPV4 → data.length < 3 →
         decomp_rfc5225_ip_udp_rtp_parse_dyn_ip data ib = none) ∧
       (ib.version = IPV4 → data.getD 0 0 / 8 ≠ 0 →
         decomp_rfc5225_ip_udp_rtp_parse_dyn_ip data ib = none) ∧
       (ib.version ≠ IPV4 → data.length < 2 →
         decomp_rfc5225_ip_udp_rtp_parse_dyn_ip data ib = none)) ∧
    (∀ (data : List Nat) (bits : rohc_rfc5225_bits),
       (data.length < 4 →
         decomp_rfc5225_ip_udp_rtp_parse_static_udp data bits = none) ∧
       (data.length < 5 →
         decomp_rfc5225_ip_udp_rtp_parse_dyn_udp data bits = none)) ∧
    (∀ (pkt : List Nat) (lcl : Nat) (bits : rohc_rfc5225_bits),
       (GET_BIT_7 ((pkt.drop (1 + lcl)).getD 0 0) ≠ 0 →
         decomp_rfc5225_ip_udp_rtp_parse_co_repair pkt lcl bits = none) ∧
       ((pkt.drop (1 + lcl)).getD 1 0 / 8 ≠ 0 →
         decomp_rfc5225_ip_udp_rtp_parse_co_repair pkt lcl bits = none)) ∧
    (∀ (pkt : List Nat) (lcl : Nat) (bits : rohc_rfc5225_bits),
       (GET_BIT_7 ((pkt.drop (lcl + 3)).getD 0 0) = 0 →
         (pkt.drop (lcl + 3)).getD 0 0 % 64 ≠ 0 →
         decomp_rfc5225_ip_udp_rtp_parse_ir pkt lcl bits = none) ∧
       (bits.ip ≠ [] → (bits.ip.headD empty_ip_bits).version = IPV4 →
         (pkt.drop (lcl + 3)).getD 0 0 / 8 ≠ 0 →
         decomp_rfc5225_ip_udp_rtp_parse_co_repair pkt lcl bits = none)) :=
  ⟨fun crc_ok ctxt nrp prev pkt lcl => H_gating crc_ok ctxt nrp prev pkt lcl,
   fun pkt lcl bits h =>
     ⟨H_ir_short pkt lcl bits h, H_co_repair_short pkt lcl bits h⟩,
   fun data ib =>
     ⟨fun h => H_static_ip_short data ib h,
      fun h7 h4 h => H_static_ip_v6_nofl_short data ib h7 h4 h,
      fun h7 h4 h => H_static_ip_v6_fl_short data ib h7 h4 h,
      fun h7 hr => H_static_ip_v4_reserved data ib h7 hr,
      fun h7 h4 hr =>
        hr.elim (fun h => H_static_ip_v6_nofl_res1 data ib h7 h4 h)
          (fun h => H_static_ip_v6_nofl_res2 data ib h7 h4 h),
      fun h7 h4 hr => H_static_ip_v6_fl_res data ib h7 h4 hr⟩,
   fun data ib =>
     ⟨fun hv h => H_dyn_ip_v4_short data ib hv h,
      fun hv hr => H_dyn_ip_v4_reserved data ib hv hr,
      fun hv h => H_dyn_ip_v6_short data ib hv h⟩,
   fun data bits =>
     ⟨fun h => H_static_udp_short data bits h,
      fun h => H_dyn_udp_short data bits h⟩,
   fun pkt lcl bits =>
     ⟨fun hr => H_co_repair_r1 pkt lcl bits hr,
      fun hr => H_co_repair_r2 pkt lcl bits hr⟩,
   fun pkt lcl bits =>
     ⟨fun h7 hr => H_ir_static_v4_reserved pkt lcl bits h7 hr,
      fun hne hv hr => H_co_repair_dyn_v4_reserved pkt lcl bits hne hv hr⟩⟩

/-- Decompression context of the C3 witness: one IPv4 header recorded. -/
def c3_decomp_ctxt : rohc_decomp_rfc5225_ip_udp_rtp_ctxt :=
  { msn_lsb_ref := 5, ip_id_offset_lsb_ref := 0, reorder_r := 0,
    ip_contexts :=
      [{ default_ip_context with version := 4, vx_version := 4, next_header := 17 }],
    udp_sport := 1234, udp_dport := 5678, udp_checksum_used := false,
    rtp_ssrc := 0 }

/-- Previous extracted bits of the C3 witness (all cleared). -/
def c3_prev_bits : rohc_rfc5225_bits :=
  { ip := [], msn_bits := 0, msn_bits_nr := 0, reorder_r := 0, reorder_r_nr := 0,
    outer_ip_flag := 0, outer_ip_flag_nr := 0,
    ctrl_crc := { typ := rohc_crc_type_t.ROHC_CRC_TYPE_NONE, bits := 0,
                  bits_nr := 0 },
    udp_sport := 0, udp_sport_nr := 0, udp_dport := 0, udp_dport_nr := 0,
    udp_checksum := 0, udp_checksum_nr := 0, rtp_ssrc := 0, rtp_ssrc_nr := 0 }

/-- Witness for C3 at a concrete malformed co_repair packet (discriminator
0xfb, r1 reserved bit set in the next octet): parsing fails and the
decompression returns the malformed status with the context unchanged. -/
theorem decomp_rfc5225_ip_udp_rtp_malformed_no_commit_witness :
    decomp_rfc5225_ip_udp_rtp_parse_pkt
      (decomp_rfc5225_ip_udp_rtp_detect_pkt_type [251, 128, 0]) [251, 128, 0] 0
      (decomp_rfc5225_ip_udp_rtp_reset_extr_bits c3_decomp_ctxt 16 c3_prev_bits) =
      none ∧
    rohc_decomp_decompress (fun _ _ => true) c3_decomp_ctxt 16 c3_prev_bits
      [251, 128, 0] 0 =
      (rohc_status_t.ROHC_STATUS_MALFORMED, c3_decomp_ctxt) :=
  ⟨by decide,
   ((decomp_rfc5225_ip_udp_rtp_malformed_no_commit.1 (fun _ _ => true)
       c3_decomp_ctxt 16 c3_prev_bits [251, 128, 0] 0).2.1) (by decide)⟩
